import Mathlib

/-!
# otLwf datapath (examples/drivers/windows/otLwf/datapath.c)

A shallow embedding of the NET_BUFFER_LIST datapath of the OpenThread
Windows filter driver.

Conventions of the embedding:

* The file is embedded as the release build with no optional macro defined:
  DBG, FORCE_SYNCHRONOUS_RECEIVE and LOG_BUFFERS are undefined, so NT_ASSERT
  and ASSERT expand to nothing and the blocks under those macros are absent.
* Pointers are natural numbers, 0 is NULL.  NET_BUFFER_LIST and NET_BUFFER
  objects live in a memory indexed by pointer.
* Calls that leave the file (NDIS, the kernel, the OpenThread API, the WPP
  trace macros, the worker of the driver) are recorded, in program order, in
  a trace of type List Call.  Results of such calls are inputs of the
  embedding.  What such a call does to memory is not part of this file and
  is not modelled.
* Loops over a chain take a fuel argument and return none when it runs out.
-/

namespace OtLwf

/-! ## Basic types and constants of the Windows headers -/

abbrev UCHAR := Fin 256
abbrev NDIS_STATUS := Nat
abbrev PNET_BUFFER_LIST := Nat
abbrev PNET_BUFFER := Nat
abbrev NDIS_PORT_NUMBER := Nat

/-- Header constant NDIS_STATUS_SUCCESS (ndis.h). -/
def NDIS_STATUS_SUCCESS : NDIS_STATUS := 0x00000000
/-- Header constant NDIS_STATUS_PAUSED (ndis.h, STATUS_NDIS_PAUSED). -/
def NDIS_STATUS_PAUSED : NDIS_STATUS := 0xC023002A
/-- Header constant NDIS_STATUS_NOT_SUPPORTED (ndis.h, STATUS_NOT_SUPPORTED). -/
def NDIS_STATUS_NOT_SUPPORTED : NDIS_STATUS := 0xC00000BB

def NDIS_SEND_FLAGS_DISPATCH_LEVEL : Nat := 0x00000001
def NDIS_SEND_COMPLETE_FLAGS_DISPATCH_LEVEL : Nat := 0x00000001
def NDIS_RECEIVE_FLAGS_DISPATCH_LEVEL : Nat := 0x00000001
def NDIS_RECEIVE_FLAGS_RESOURCES : Nat := 0x00000002
def NDIS_RETURN_FLAGS_DISPATCH_LEVEL : Nat := 0x00000001
def NDIS_DEFAULT_PORT_NUMBER : NDIS_PORT_NUMBER := 0
def NDIS_NBL_FLAGS_IS_IPV6 : Nat := 0x00000002
def ETHERNET_TYPE_IPV6 : Nat := 0x86dd
def IPPROTO_UDP : Nat := 17

/-- Macro NDIS_TEST_SEND_AT_DISPATCH_LEVEL of ndis.h. -/
def NDIS_TEST_SEND_AT_DISPATCH_LEVEL (SendFlags : Nat) : Bool :=
  (SendFlags &&& NDIS_SEND_FLAGS_DISPATCH_LEVEL) != 0

/-- Macro NDIS_TEST_RECEIVE_AT_DISPATCH_LEVEL of ndis.h. -/
def NDIS_TEST_RECEIVE_AT_DISPATCH_LEVEL (ReceiveFlags : Nat) : Bool :=
  (ReceiveFlags &&& NDIS_RECEIVE_FLAGS_DISPATCH_LEVEL) != 0

/-- Macro NDIS_TEST_RECEIVE_CANNOT_PEND of ndis.h. -/
def NDIS_TEST_RECEIVE_CANNOT_PEND (ReceiveFlags : Nat) : Bool :=
  (ReceiveFlags &&& NDIS_RECEIVE_FLAGS_RESOURCES) != 0

/-- RtlUshortByteSwap: exchange the two bytes of a 16-bit value. -/
def RtlUshortByteSwap (x : Nat) : Nat :=
  (x % 256) * 256 + (x / 256) % 256

/-! ## Data model -/

/-- A NET_BUFFER, with the fields this file touches. -/
structure NET_BUFFER where
  CurrentMdl : Nat
  CurrentMdlOffset : Nat
  DataLength : Nat
  DataOffset : Nat
  MdlChain : Nat
deriving DecidableEq, Repr

/-- A NET_BUFFER_LIST, with the fields this file touches. -/
structure NET_BUFFER_LIST where
  Next : PNET_BUFFER_LIST
  FirstNetBuffer : PNET_BUFFER
  Status : NDIS_STATUS
  NblFlags : Nat
  NetBufferListFrameType : Nat
deriving DecidableEq, Repr

/-- Memory holding the buffer-list nodes and their buffers, by pointer. -/
structure Mem where
  nbl : PNET_BUFFER_LIST → NET_BUFFER_LIST
  nb : PNET_BUFFER → NET_BUFFER

/-- An IPv6 address: sixteen bytes. -/
abbrev IN6_ADDR := { l : List UCHAR // l.length = 16 }

/-- Phy-state of the interface (the values this file names, and the rest). -/
inductive otPhyState where
  | kStateDisabled
  | kStateTransmit
  | kStateOther
deriving DecidableEq, Repr

/-- Modelled from the spec: the Quiescence Guard (EX_RUNDOWN_REF of the kernel),
which counts outstanding operations and is either Active or Draining/Disabled. -/
structure EX_RUNDOWN_REF where
  Active : Bool
  Count : Nat
deriving DecidableEq, Repr

/-- The filter context MS_FILTER, with the fields this file reads. -/
structure MS_FILTER where
  FilterHandle : Nat
  otPhyState : otPhyState
  DataPathRundown : EX_RUNDOWN_REF
  NetBufferListPool : Nat
  otLinkLocalAddr : IN6_ADDR
  otCachedAddr : List IN6_ADDR
deriving DecidableEq

/-- An IPv6 datagram of the mesh stack: the handle the API passes around, and the bytes
behind it.  The length of a datagram is a uint16_t. -/
structure otMessage where
  handle : Nat
  bytes : List UCHAR
  length_lt : bytes.length < 2 ^ 16

/-- Severity of a WPP trace line. -/
inductive LogLevel where
  | FuncEntry
  | FuncExit
  | Verbose
  | Info
  | Warning
  | Error
deriving DecidableEq, Repr

/-- A call that leaves datapath.c, with the arguments the file passes.  A datagram is
passed as its handle. -/
inductive Call where
  | Log (level : LogLevel)
  | ExAcquireRundownProtection
  | ExReleaseRundownProtection
  | NdisFSendNetBufferListsComplete (FilterHandle : Nat) (NetBufferLists : PNET_BUFFER_LIST)
      (SendCompleteFlags : Nat)
  | NdisFReturnNetBufferLists (FilterHandle : Nat) (NetBufferLists : PNET_BUFFER_LIST)
      (ReturnFlags : Nat)
  | otLwfEventProcessingIndicateNewNetBufferLists (DispatchLevel : Bool) (Received : Bool)
      (PortNumber : NDIS_PORT_NUMBER) (NetBufferLists : PNET_BUFFER_LIST)
  | NdisAdvanceNetBufferDataStart (NetBuffer : PNET_BUFFER) (DataOffsetDelta : Nat)
  | NdisFreeNetBufferList (NetBufferList : PNET_BUFFER_LIST)
  | otGetMessageLength (aMessage : Nat)
  | NdisAllocateNetBufferAndNetBufferList (PoolHandle : Nat)
  | NdisRetreatNetBufferDataStart (NetBuffer : PNET_BUFFER) (DataOffsetDelta : Nat)
  | NdisGetDataBuffer (NetBuffer : PNET_BUFFER) (BytesNeeded : Nat)
  | otReadMessage (aMessage : Nat) (aOffset : Nat) (aLength : Nat)
  | otLwfFindCachedAddrIndex (addr : IN6_ADDR)
  | NdisFIndicateReceiveNetBufferLists (FilterHandle : Nat) (NetBufferLists : PNET_BUFFER_LIST)
      (PortNumber : NDIS_PORT_NUMBER) (NumberOfNetBufferLists : Nat) (ReceiveFlags : Nat)
  | otFreeMessage (aMessage : Nat)
deriving DecidableEq, Repr

/-- Whether a call is a WPP trace line. -/
def Call.isLog : Call → Bool
  | Call.Log _ => true
  | _ => false

/-- The trace without its WPP trace lines. -/
def withoutLog (t : List Call) : List Call :=
  t.filter (fun c => !c.isLog)

/-! ## The rundown guard -/

/-- Modelled from the spec: acquire() of the Quiescence Guard (ExAcquireRundownProtection,
a kernel routine): fails when the guard is not Active, else increments the count. -/
def ExAcquireRundownProtection (r : EX_RUNDOWN_REF) : Bool × EX_RUNDOWN_REF :=
  if r.Active then (true, { r with Count := r.Count + 1 }) else (false, r)

/-- Modelled from the spec: release() of the Quiescence Guard (ExReleaseRundownProtection,
a kernel routine): decrements the count. -/
def ExReleaseRundownProtection (r : EX_RUNDOWN_REF) : EX_RUNDOWN_REF :=
  { r with Count := r.Count - 1 }

/-! ## Chains -/

/-- The macro NET_BUFFER_LIST_STATUS(p) = s as a memory write. -/
def setStatus (mem : Mem) (p : PNET_BUFFER_LIST) (s : NDIS_STATUS) : Mem :=
  { mem with nbl := Function.update mem.nbl p { mem.nbl p with Status := s } }

/-- The loop `while (CurrNbl) { NET_BUFFER_LIST_STATUS(CurrNbl) = s; CurrNbl = next; }`. -/
def markChain : Nat → Mem → PNET_BUFFER_LIST → NDIS_STATUS → Option Mem
  | fuel, mem, CurrNbl, s =>
    if CurrNbl = 0 then some mem
    else
      match fuel with
      | 0 => none
      | fuel + 1 =>
        let mem1 := setStatus mem CurrNbl s
        markChain fuel mem1 (mem1.nbl CurrNbl).Next s

/-- The pointer p heads the null-terminated chain whose nodes are, in order, l. -/
def IsChain (mem : Mem) : PNET_BUFFER_LIST → List PNET_BUFFER_LIST → Prop
  | p, [] => p = 0
  | p, a :: l => p = a ∧ a ≠ 0 ∧ IsChain mem (mem.nbl a).Next l

/-- The result of an entry point: memory, filter context and the calls made. -/
structure Outcome where
  mem : Mem
  filter : MS_FILTER
  trace : List Call

/-! ## Egress: FilterSendNetBufferLists -/

/-- FilterSendNetBufferLists (datapath.c, lines 165 to 231). -/
def FilterSendNetBufferLists (fuel : Nat) (mem : Mem) (pFilter : MS_FILTER)
    (NetBufferLists : PNET_BUFFER_LIST) (PortNumber : NDIS_PORT_NUMBER) (SendFlags : Nat) :
    Option Outcome :=
  let DispatchLevel := NDIS_TEST_SEND_AT_DISPATCH_LEVEL SendFlags
  let acq := ExAcquireRundownProtection pFilter.DataPathRundown
  let pFilter1 := { pFilter with DataPathRundown := acq.2 }
  let t0 := [Call.Log LogLevel.FuncEntry, Call.ExAcquireRundownProtection]
  if !acq.1 then
    match markChain fuel mem NetBufferLists NDIS_STATUS_PAUSED with
    | none => none
    | some mem1 =>
      some { mem := mem1, filter := pFilter1,
             trace := t0 ++ [Call.Log LogLevel.Verbose,
               Call.NdisFSendNetBufferListsComplete pFilter.FilterHandle NetBufferLists
                 (if DispatchLevel then NDIS_SEND_COMPLETE_FLAGS_DISPATCH_LEVEL else 0),
               Call.Log LogLevel.FuncExit] }
  else
    some { mem := mem,
           filter := { pFilter1 with
             DataPathRundown := ExReleaseRundownProtection pFilter1.DataPathRundown },
           trace := t0 ++ [Call.otLwfEventProcessingIndicateNewNetBufferLists DispatchLevel false
               PortNumber NetBufferLists,
             Call.ExReleaseRundownProtection,
             Call.Log LogLevel.FuncExit] }

/-! ## Receive return: FilterReturnNetBufferLists -/

/-- FilterReceiveNetBufferLists (datapath.c, lines 290 to 390), with DBG undefined: the
assertions and the channel check of lines 366 to 375 are absent.  The test of the phy-state
comes before the acquire of the guard and short-circuits it. -/
def FilterReceiveNetBufferLists (fuel : Nat) (mem : Mem) (pFilter : MS_FILTER)
    (NetBufferLists : PNET_BUFFER_LIST) (PortNumber : NDIS_PORT_NUMBER)
    (NumberOfNetBufferLists : Nat) (ReceiveFlags : Nat) : Option Outcome :=
  let _unreferenced := NumberOfNetBufferLists
  let DispatchLevel := NDIS_TEST_RECEIVE_AT_DISPATCH_LEVEL ReceiveFlags
  let t0 := [Call.Log LogLevel.FuncEntry]
  if NDIS_TEST_RECEIVE_CANNOT_PEND ReceiveFlags then
    match markChain fuel mem NetBufferLists NDIS_STATUS_NOT_SUPPORTED with
    | none => none
    | some mem1 =>
      some { mem := mem1, filter := pFilter, trace := t0 ++ [Call.Log LogLevel.FuncExit] }
  else if pFilter.otPhyState = otPhyState.kStateDisabled then
    match markChain fuel mem NetBufferLists NDIS_STATUS_PAUSED with
    | none => none
    | some mem1 =>
      some { mem := mem1, filter := pFilter,
             trace := t0 ++ [Call.Log LogLevel.Verbose,
               Call.NdisFReturnNetBufferLists pFilter.FilterHandle NetBufferLists
                 (if DispatchLevel then NDIS_RETURN_FLAGS_DISPATCH_LEVEL else 0),
               Call.Log LogLevel.FuncExit] }
  else
    let acq := ExAcquireRundownProtection pFilter.DataPathRundown
    let pFilter1 := { pFilter with DataPathRundown := acq.2 }
    let t1 := t0 ++ [Call.ExAcquireRundownProtection]
    if !acq.1 then
      match markChain fuel mem NetBufferLists NDIS_STATUS_PAUSED with
      | none => none
      | some mem1 =>
        some { mem := mem1, filter := pFilter1,
               trace := t1 ++ [Call.Log LogLevel.Verbose,
                 Call.NdisFReturnNetBufferLists pFilter.FilterHandle NetBufferLists
                   (if DispatchLevel then NDIS_RETURN_FLAGS_DISPATCH_LEVEL else 0),
                 Call.Log LogLevel.FuncExit] }
    else
      some { mem := mem,
             filter := { pFilter1 with
               DataPathRundown := ExReleaseRundownProtection pFilter1.DataPathRundown },
             trace := t1 ++ [Call.otLwfEventProcessingIndicateNewNetBufferLists DispatchLevel true
                 PortNumber NetBufferLists,
               Call.ExReleaseRundownProtection,
               Call.Log LogLevel.FuncExit] }

/-! ## Inbound message delivery: otLwfReceiveIp6DatagramCallback -/

/-- Results of the calls the callback makes outside the file. -/
structure Externals where
  /-- The pointer NdisAllocateNetBufferAndNetBufferList returns (0 is NULL). -/
  NdisAllocateNetBufferAndNetBufferList : PNET_BUFFER_LIST
  /-- The status NdisRetreatNetBufferDataStart returns. -/
  NdisRetreatNetBufferDataStart : NDIS_STATUS
  /-- The result of NdisGetDataBuffer: NULL, or the bytes at the returned pointer. -/
  NdisGetDataBuffer : Option (Nat → UCHAR)
  /-- The count otReadMessage returns. -/
  otReadMessage : Int

/-- Modelled from the spec: datagram_length(msg) -> uint16, the length of the datagram
(otGetMessageLength of the OpenThread API). -/
def otGetMessageLength (aMessage : otMessage) : Nat :=
  aMessage.bytes.length

/-- Modelled from the spec: read_datagram(msg, offset, buffer, length) -> bytes_read
(otReadMessage of the OpenThread API): the first bytes_read bytes of the buffer are the
bytes of the datagram from the offset on; the rest of the buffer is unchanged. -/
def otReadMessageInto (aMessage : otMessage) (aOffset : Nat) (BytesRead : Int)
    (buf : Nat → UCHAR) : Nat → UCHAR :=
  fun i => if (i : Int) < BytesRead then aMessage.bytes.getD (aOffset + i) (buf i) else buf i

/-- Modelled from the spec: the address-membership query on the cached address set of the
filter context (otLwfFindCachedAddrIndex, defined in another file of the driver): the index
of the first cached address equal to addr, counted from i, or -1. -/
def findCachedAddrIndexFrom : List IN6_ADDR → IN6_ADDR → Nat → Int
  | [], _, _ => -1
  | a :: l, addr, i => if a = addr then (i : Int) else findCachedAddrIndexFrom l addr (i + 1)

/-- Modelled from the spec: otLwfFindCachedAddrIndex(pFilter, addr). -/
def otLwfFindCachedAddrIndex (pFilter : MS_FILTER) (addr : IN6_ADDR) : Int :=
  findCachedAddrIndexFrom pFilter.otCachedAddr addr 0

/-- Macro IN6_IS_ADDR_MULTICAST of the Windows headers: the first byte is 0xFF. -/
def IN6_IS_ADDR_MULTICAST (a : IN6_ADDR) : Bool :=
  a.val.head? == some 0xFF

/-- The size of IPV6_HEADER. -/
def sizeof_IPV6_HEADER : Nat := 40
/-- The size of UDPHeader (four USHORT fields, packed). -/
def sizeof_UDPHeader : Nat := 8

/-- Field NextHeader of the IPV6_HEADER at the start of the buffer (offset 6). -/
def v6Header_NextHeader (buf : Nat → UCHAR) : Nat := (buf 6).val

/-- Field DestinationAddress of the IPV6_HEADER at the start of the buffer (offset 24). -/
def v6Header_DestinationAddress (buf : Nat → UCHAR) : IN6_ADDR :=
  ⟨(List.range 16).map (fun i => buf (24 + i)), by simp⟩

/-- A USHORT loaded from the buffer at an offset (the machine is little-endian). -/
def loadUSHORT (buf : Nat → UCHAR) (off : Nat) : Nat :=
  (buf off).val + 256 * (buf (off + 1)).val

/-- Field SourcePort of the UDPHeader that follows the IPV6_HEADER. -/
def UdpHeader_SourcePort (buf : Nat → UCHAR) : Nat := loadUSHORT buf (sizeof_IPV6_HEADER + 0)
/-- Field DestinationPort of the UDPHeader that follows the IPV6_HEADER. -/
def UdpHeader_DestinationPort (buf : Nat → UCHAR) : Nat := loadUSHORT buf (sizeof_IPV6_HEADER + 2)

/-- The writes of lines 476 to 478: the IPv6 flag and the frame type of the new list. -/
def tagIpv6 (mem : Mem) (p : PNET_BUFFER_LIST) : Mem :=
  let node : NET_BUFFER_LIST :=
    { mem.nbl p with
      NblFlags := (mem.nbl p).NblFlags ||| NDIS_NBL_FLAGS_IS_IPV6,
      NetBufferListFrameType := RtlUshortByteSwap ETHERNET_TYPE_IPV6 }
  { mem with nbl := Function.update mem.nbl p node }

/-- The writes of lines 482 to 486: the fields of the first NET_BUFFER are cleared. -/
def initNetBuffer (mem : Mem) (q : PNET_BUFFER) : Mem :=
  let cleared : NET_BUFFER :=
    { CurrentMdl := 0, CurrentMdlOffset := 0, DataLength := 0, DataOffset := 0, MdlChain := 0 }
  { mem with nb := Function.update mem.nb q cleared }

/-- The address-scope test of lines 522 and 523. -/
def dropsByAddressScope (pFilter : MS_FILTER) (buf : Nat → UCHAR) : Bool :=
  !IN6_IS_ADDR_MULTICAST (v6Header_DestinationAddress buf) &&
    decide (otLwfFindCachedAddrIndex pFilter (v6Header_DestinationAddress buf) = -1)

/-- The internal-protocol (MLE) test of lines 532 to 539. -/
def dropsByMleRule (pFilter : MS_FILTER) (messageLength : Nat) (buf : Nat → UCHAR) : Bool :=
  (v6Header_NextHeader buf == IPPROTO_UDP &&
    decide (messageLength ≥ sizeof_IPV6_HEADER + sizeof_UDPHeader) &&
    decide (pFilter.otLinkLocalAddr = v6Header_DestinationAddress buf)) &&
  (UdpHeader_DestinationPort buf == UdpHeader_SourcePort buf &&
    UdpHeader_DestinationPort buf == RtlUshortByteSwap 19788)

/-- The calls of an early exit after a successful reservation: undo, free, log, then the
label error. -/
def undoFreeExit (NetBuffer : PNET_BUFFER) (NetBufferList : PNET_BUFFER_LIST)
    (messageLength : Nat) (level : LogLevel) (aMessage : Nat) : List Call :=
  [Call.NdisAdvanceNetBufferDataStart NetBuffer messageLength,
   Call.NdisFreeNetBufferList NetBufferList,
   Call.Log level,
   Call.otFreeMessage aMessage]

/-- otLwfReceiveIp6DatagramCallback (datapath.c, lines 440 to 586), with
FORCE_SYNCHRONOUS_RECEIVE and LOG_BUFFERS undefined and NT_ASSERT expanding to nothing.
Every exit goes through the label error, where otFreeMessage is called. -/
def otLwfReceiveIp6DatagramCallback (ext : Externals) (mem : Mem) (aMessage : otMessage)
    (pFilter : MS_FILTER) : Mem × List Call :=
  let messageLength := otGetMessageLength aMessage
  let NetBufferList := ext.NdisAllocateNetBufferAndNetBufferList
  let t0 := [Call.otGetMessageLength aMessage.handle,
             Call.NdisAllocateNetBufferAndNetBufferList pFilter.NetBufferListPool]
  if NetBufferList = 0 then
    (mem, t0 ++ [Call.Log LogLevel.Warning, Call.otFreeMessage aMessage.handle])
  else
    let mem1 := tagIpv6 mem NetBufferList
    let NetBuffer := (mem1.nbl NetBufferList).FirstNetBuffer
    let mem2 := initNetBuffer mem1 NetBuffer
    let Status := ext.NdisRetreatNetBufferDataStart
    let t1 := t0 ++ [Call.NdisRetreatNetBufferDataStart NetBuffer messageLength]
    if Status ≠ NDIS_STATUS_SUCCESS then
      (mem2, t1 ++ [Call.NdisFreeNetBufferList NetBufferList, Call.Log LogLevel.Error,
                    Call.otFreeMessage aMessage.handle])
    else
      let t2 := t1 ++ [Call.NdisGetDataBuffer NetBuffer messageLength]
      match ext.NdisGetDataBuffer with
      | none =>
        (mem2, t2 ++
          undoFreeExit NetBuffer NetBufferList messageLength LogLevel.Error aMessage.handle)
      | some DataBuffer0 =>
        let BytesRead := ext.otReadMessage
        let DataBuffer := otReadMessageInto aMessage 0 BytesRead DataBuffer0
        let t3 := t2 ++ [Call.otReadMessage aMessage.handle 0 messageLength]
        if BytesRead ≠ (messageLength : Int) then
          (mem2, t3 ++
            undoFreeExit NetBuffer NetBufferList messageLength LogLevel.Error aMessage.handle)
        else
          let multicast := IN6_IS_ADDR_MULTICAST (v6Header_DestinationAddress DataBuffer)
          let t4 := t3 ++ (if multicast then []
            else [Call.otLwfFindCachedAddrIndex (v6Header_DestinationAddress DataBuffer)])
          if dropsByAddressScope pFilter DataBuffer then
            (mem2, t4 ++
              undoFreeExit NetBuffer NetBufferList messageLength LogLevel.Verbose aMessage.handle)
          else if dropsByMleRule pFilter messageLength DataBuffer then
            (mem2, t4 ++
              undoFreeExit NetBuffer NetBufferList messageLength LogLevel.Verbose aMessage.handle)
          else
            (mem2, t4 ++ [Call.Log LogLevel.Verbose,
              Call.NdisFIndicateReceiveNetBufferLists pFilter.FilterHandle NetBufferList
                NDIS_DEFAULT_PORT_NUMBER 1 0,
              Call.otFreeMessage aMessage.handle])

/-! ## Reference descriptions used in the statements -/

/-- The memory in which every node of l has status s and nothing else differs. -/
def markAll (mem : Mem) (l : List PNET_BUFFER_LIST) (s : NDIS_STATUS) : Mem :=
  { mem with nbl := fun q => if q ∈ l then { mem.nbl q with Status := s } else mem.nbl q }

/-- Whether a call is otFreeMessage (on any datagram). -/
def Call.isFreeMessage : Call → Bool
  | Call.otFreeMessage _ => true
  | _ => false

/-- Whether a call is NdisFIndicateReceiveNetBufferLists (with any arguments). -/
def Call.isIndicate : Call → Bool
  | Call.NdisFIndicateReceiveNetBufferLists _ _ _ _ _ => true
  | _ => false

/-- Whether a call disposes of a buffer list or undoes a reservation: an advance of a data
start, a free of a list, or an indication upward. -/
def Call.isDisposition : Call → Bool
  | Call.NdisAdvanceNetBufferDataStart _ _ => true
  | Call.NdisFreeNetBufferList _ => true
  | Call.NdisFIndicateReceiveNetBufferLists _ _ _ _ _ => true
  | _ => false

/-- Byte i of a datagram (0 past its end). -/
def datagramByte (aMessage : otMessage) (i : Nat) : UCHAR :=
  aMessage.bytes.getD i 0

/-- The IPv6 destination address of a datagram: its bytes 24 to 39. -/
def datagramDestination (aMessage : otMessage) : IN6_ADDR :=
  v6Header_DestinationAddress (datagramByte aMessage)

/-- The next-header field of a datagram: its byte 6. -/
def datagramNextHeader (aMessage : otMessage) : Nat :=
  (datagramByte aMessage 6).val

/-- The UDP source port of a datagram: bytes 40 and 41 in network byte order. -/
def datagramSourcePort (aMessage : otMessage) : Nat :=
  256 * (datagramByte aMessage 40).val + (datagramByte aMessage 41).val

/-- The UDP destination port of a datagram: bytes 42 and 43 in network byte order. -/
def datagramDestinationPort (aMessage : otMessage) : Nat :=
  256 * (datagramByte aMessage 42).val + (datagramByte aMessage 43).val

/-- The failures after a successful allocation on which the callback gives up the list:
the reservation fails, there is no contiguous view, the count of copied bytes is not the
length of the datagram, or one of the two filters drops the datagram. -/
def DeliveryFails (ext : Externals) (aMessage : otMessage) (pFilter : MS_FILTER) : Prop :=
  ext.NdisRetreatNetBufferDataStart ≠ NDIS_STATUS_SUCCESS ∨
  ext.NdisGetDataBuffer = none ∨
  ext.otReadMessage ≠ (otGetMessageLength aMessage : Int) ∨
  ∃ buf0, ext.NdisGetDataBuffer = some buf0 ∧
    (dropsByAddressScope pFilter (otReadMessageInto aMessage 0 ext.otReadMessage buf0) = true ∨
     dropsByMleRule pFilter (otGetMessageLength aMessage)
       (otReadMessageInto aMessage 0 ext.otReadMessage buf0) = true)

/-- The number of acquires of the guard in a trace that succeeded, for an entry point that
starts with the guard in state g.  Each entry point tries the acquire at most once, on the
guard as it finds it, so every acquire in its trace has the result of the acquire on g. -/
def successfulAcquires (g : EX_RUNDOWN_REF) (t : List Call) : Nat :=
  if (ExAcquireRundownProtection g).1 then t.count Call.ExAcquireRundownProtection else 0

/-! ## Concrete inputs -/

/-- A memory holding the chain 1, 2, 3; node 2 carries a failure status. -/
def exMem : Mem :=
  { nbl := fun p =>
      { Next := if p = 1 then 2 else if p = 2 then 3 else 0,
        FirstNetBuffer := p + 100,
        Status := if p = 2 then 0xC0000001 else 0,
        NblFlags := 0,
        NetBufferListFrameType := 0 },
    nb := fun q =>
      { CurrentMdl := 0, CurrentMdlOffset := 0, DataLength := q - 60, DataOffset := 0,
        MdlChain := 0 } }

/-- The link-local address fe80::1. -/
def exLinkLocal : IN6_ADDR := ⟨[0xfe, 0x80, 0, 0, 0, 0, 0, 0, 0, 0, 0, 0, 0, 0, 0, 1], rfl⟩

/-- The multicast address ff02::1. -/
def exAllNodes : IN6_ADDR := ⟨[0xff, 0x02, 0, 0, 0, 0, 0, 0, 0, 0, 0, 0, 0, 0, 0, 1], rfl⟩

/-- The unicast address 2001::7. -/
def exGlobal : IN6_ADDR := ⟨[0x20, 0x01, 0, 0, 0, 0, 0, 0, 0, 0, 0, 0, 0, 0, 0, 7], rfl⟩

/-- A filter context with link-local address fe80::1. -/
def exFilter (active : Bool) (cached : List IN6_ADDR) : MS_FILTER :=
  { FilterHandle := 7,
    otPhyState := otPhyState.kStateOther,
    DataPathRundown := { Active := active, Count := 0 },
    NetBufferListPool := 3,
    otLinkLocalAddr := exLinkLocal,
    otCachedAddr := cached }

/-- A filter context with a given link-local address, guard active. -/
def exFilterWith (linkLocal : IN6_ADDR) (cached : List IN6_ADDR) : MS_FILTER :=
  { FilterHandle := 7,
    otPhyState := otPhyState.kStateOther,
    DataPathRundown := { Active := true, Count := 0 },
    NetBufferListPool := 3,
    otLinkLocalAddr := linkLocal,
    otCachedAddr := cached }

/-- Outside calls that all succeed: the list 5 is allocated, the reservation succeeds, a
zeroed contiguous view is returned and n bytes are copied. -/
def exExt (n : Int) : Externals :=
  { NdisAllocateNetBufferAndNetBufferList := 5,
    NdisRetreatNetBufferDataStart := NDIS_STATUS_SUCCESS,
    NdisGetDataBuffer := some (fun _ => 0),
    otReadMessage := n }

/-- A 40-byte datagram from fe80::1 to 2001::7 with no next header. -/
def exMsgGlobal : otMessage :=
  { handle := 9,
    bytes := [0x60, 0, 0, 0, 0, 0, 59, 64] ++ exLinkLocal.val ++ exGlobal.val,
    length_lt := by decide }

/-- A 48-byte UDP datagram from fe80::1 to ff02::1, ports 19788 and 19788. -/
def exMsgAllNodes : otMessage :=
  { handle := 9,
    bytes := [0x60, 0, 0, 0, 0, 8, 17, 64] ++ exLinkLocal.val ++ exAllNodes.val ++
      [0x4D, 0x4C, 0x4D, 0x4C, 0, 8, 0, 0],
    length_lt := by decide }

/-- A 48-byte UDP datagram from fe80::1 to fe80::1, ports 19788 and 19788. -/
def exMsgMle : otMessage :=
  { handle := 9,
    bytes := [0x60, 0, 0, 0, 0, 8, 17, 64] ++ exLinkLocal.val ++ exLinkLocal.val ++
      [0x4D, 0x4C, 0x4D, 0x4C, 0, 8, 0, 0],
    length_lt := by decide }

/-- A 44-byte datagram from fe80::1 to fe80::1 with next-header UDP whose bytes 40 to 43
are the ports 19788 and 19788: the UDP header is cut short. -/
def exMsgMleShort : otMessage :=
  { handle := 9,
    bytes := [0x60, 0, 0, 0, 0, 4, 17, 64] ++ exLinkLocal.val ++ exLinkLocal.val ++
      [0x4D, 0x4C, 0x4D, 0x4C],
    length_lt := by decide }

/-- A 48-byte UDP datagram from fe80::1 to fe80::1, ports 19788 and 12345. -/
def exMsgOtherPort : otMessage :=
  { handle := 9,
    bytes := [0x60, 0, 0, 0, 0, 8, 17, 64] ++ exLinkLocal.val ++ exLinkLocal.val ++
      [0x4D, 0x4C, 0x30, 0x39, 0, 8, 0, 0],
    length_lt := by decide }

/-- The datagram exMsgOtherPort with source address 2001::7 in place of fe80::1. -/
def exMsgOtherSource : otMessage :=
  { handle := 9,
    bytes := [0x60, 0, 0, 0, 0, 8, 17, 64] ++ exGlobal.val ++ exLinkLocal.val ++
      [0x4D, 0x4C, 0x30, 0x39, 0, 8, 0, 0],
    length_lt := by decide }

/-! ## Lemmas on chains -/

theorem isChain_congr {mem mem1 : Mem} :
    ∀ (l : List PNET_BUFFER_LIST) (p : PNET_BUFFER_LIST),
      (∀ a ∈ l, (mem1.nbl a).Next = (mem.nbl a).Next) → IsChain mem p l → IsChain mem1 p l := by
  intro l
  induction l with
  | nil => intro p _ h; exact h
  | cons a l ih =>
    intro p hn h
    obtain ⟨h1, h2, h3⟩ := h
    refine ⟨h1, h2, ?_⟩
    rw [hn a (List.mem_cons_self a l)]
    exact ih _ (fun b hb => hn b (List.mem_cons_of_mem a hb)) h3

theorem markAll_nil (mem : Mem) (s : NDIS_STATUS) : markAll mem [] s = mem := by
  cases mem
  simp [markAll]

theorem markAll_cons (mem : Mem) (a : PNET_BUFFER_LIST) (l : List PNET_BUFFER_LIST)
    (s : NDIS_STATUS) : markAll (setStatus mem a s) l s = markAll mem (a :: l) s := by
  cases mem with
  | mk nbl nb =>
    simp only [markAll, setStatus, Mem.mk.injEq, and_true]
    funext q
    by_cases hqa : q = a
    · subst hqa
      by_cases hql : q ∈ l <;> simp [hql]
    · by_cases hql : q ∈ l <;> simp [hql, hqa, Function.update_noteq hqa]

/-- The status loop over a finite chain terminates and marks exactly its nodes. -/
theorem markChain_eq (s : NDIS_STATUS) :
    ∀ (l : List PNET_BUFFER_LIST) (fuel : Nat) (mem : Mem) (p : PNET_BUFFER_LIST),
      IsChain mem p l → l.length ≤ fuel → markChain fuel mem p s = some (markAll mem l s) := by
  intro l
  induction l with
  | nil =>
    intro fuel mem p h _
    have hp : p = 0 := h
    subst hp
    unfold markChain
    simp [markAll_nil]
  | cons a l ih =>
    intro fuel mem p h hf
    obtain ⟨hp, ha, hc⟩ := h
    subst hp
    cases fuel with
    | zero => simp at hf
    | succ f =>
      unfold markChain
      simp only [ha, if_false]
      have hnext : ((setStatus mem p s).nbl p).Next = (mem.nbl p).Next := by
        simp [setStatus]
      rw [hnext]
      have hc1 : IsChain (setStatus mem p s) (mem.nbl p).Next l := by
        apply isChain_congr l _ _ hc
        intro b _
        by_cases hb : b = p
        · subst hb; simp [setStatus]
        · simp [setStatus, Function.update_noteq hb]
      rw [ih f _ _ hc1 (by simpa using hf), markAll_cons]

theorem isChain_markAll {mem : Mem} {p : PNET_BUFFER_LIST} {l : List PNET_BUFFER_LIST}
    (l1 : List PNET_BUFFER_LIST) (s : NDIS_STATUS) (h : IsChain mem p l) :
    IsChain (markAll mem l1 s) p l := by
  apply isChain_congr l p _ h
  intro a _
  by_cases ha : a ∈ l1 <;> simp [markAll, ha]

theorem markAll_status {mem : Mem} {l : List PNET_BUFFER_LIST} {s : NDIS_STATUS}
    {a : PNET_BUFFER_LIST} (ha : a ∈ l) : ((markAll mem l s).nbl a).Status = s := by
  simp [markAll, ha]

theorem exMem_chain : IsChain exMem 1 [1, 2, 3] :=
  ⟨rfl, by decide, rfl, by decide, rfl, by decide, rfl⟩

/-! ## Egress and ingress rejection -/

theorem FilterSend_paused_eq (fuel : Nat) (mem : Mem) (pFilter : MS_FILTER)
    (NetBufferLists : PNET_BUFFER_LIST) (PortNumber : NDIS_PORT_NUMBER) (SendFlags : Nat)
    (l : List PNET_BUFFER_LIST) (hchain : IsChain mem NetBufferLists l)
    (hfuel : l.length ≤ fuel)
    (hguard : (ExAcquireRundownProtection pFilter.DataPathRundown).1 = false) :
    FilterSendNetBufferLists fuel mem pFilter NetBufferLists PortNumber SendFlags =
      some { mem := markAll mem l NDIS_STATUS_PAUSED,
             filter := { pFilter with
               DataPathRundown := (ExAcquireRundownProtection pFilter.DataPathRundown).2 },
             trace := [Call.Log LogLevel.FuncEntry, Call.ExAcquireRundownProtection,
               Call.Log LogLevel.Verbose,
               Call.NdisFSendNetBufferListsComplete pFilter.FilterHandle NetBufferLists
                 (if NDIS_TEST_SEND_AT_DISPATCH_LEVEL SendFlags
                   then NDIS_SEND_COMPLETE_FLAGS_DISPATCH_LEVEL else 0),
               Call.Log LogLevel.FuncExit] } := by
  unfold FilterSendNetBufferLists
  simp only [hguard, Bool.not_false, if_true,
    markChain_eq NDIS_STATUS_PAUSED l fuel mem NetBufferLists hchain hfuel]
  rfl

theorem FilterReceive_cannot_pend_eq (fuel : Nat) (mem : Mem) (pFilter : MS_FILTER)
    (NetBufferLists : PNET_BUFFER_LIST) (PortNumber : NDIS_PORT_NUMBER)
    (NumberOfNetBufferLists : Nat) (ReceiveFlags : Nat)
    (l : List PNET_BUFFER_LIST) (hchain : IsChain mem NetBufferLists l)
    (hfuel : l.length ≤ fuel)
    (hpend : NDIS_TEST_RECEIVE_CANNOT_PEND ReceiveFlags = true) :
    FilterReceiveNetBufferLists fuel mem pFilter NetBufferLists PortNumber
      NumberOfNetBufferLists ReceiveFlags =
      some { mem := markAll mem l NDIS_STATUS_NOT_SUPPORTED, filter := pFilter,
             trace := [Call.Log LogLevel.FuncEntry, Call.Log LogLevel.FuncExit] } := by
  unfold FilterReceiveNetBufferLists
  simp only [hpend, if_true,
    markChain_eq NDIS_STATUS_NOT_SUPPORTED l fuel mem NetBufferLists hchain hfuel]
  rfl

theorem FilterReceive_paused_eq (fuel : Nat) (mem : Mem) (pFilter : MS_FILTER)
    (NetBufferLists : PNET_BUFFER_LIST) (PortNumber : NDIS_PORT_NUMBER)
    (NumberOfNetBufferLists : Nat) (ReceiveFlags : Nat)
    (l : List PNET_BUFFER_LIST) (hchain : IsChain mem NetBufferLists l)
    (hfuel : l.length ≤ fuel)
    (hpend : NDIS_TEST_RECEIVE_CANNOT_PEND ReceiveFlags = false)
    (hguard : (ExAcquireRundownProtection pFilter.DataPathRundown).1 = false) :
    FilterReceiveNetBufferLists fuel mem pFilter NetBufferLists PortNumber
      NumberOfNetBufferLists ReceiveFlags =
      some { mem := markAll mem l NDIS_STATUS_PAUSED,
             filter := if pFilter.otPhyState = otPhyState.kStateDisabled then pFilter
               else { pFilter with
                 DataPathRundown := (ExAcquireRundownProtection pFilter.DataPathRundown).2 },
             trace := [Call.Log LogLevel.FuncEntry] ++
               (if pFilter.otPhyState = otPhyState.kStateDisabled then []
                 else [Call.ExAcquireRundownProtection]) ++
               [Call.Log LogLevel.Verbose,
                 Call.NdisFReturnNetBufferLists pFilter.FilterHandle NetBufferLists
                   (if NDIS_TEST_RECEIVE_AT_DISPATCH_LEVEL ReceiveFlags
                     then NDIS_RETURN_FLAGS_DISPATCH_LEVEL else 0),
                 Call.Log LogLevel.FuncExit] } := by
  have hm := markChain_eq NDIS_STATUS_PAUSED l fuel mem NetBufferLists hchain hfuel
  unfold FilterReceiveNetBufferLists
  by_cases hphy : pFilter.otPhyState = otPhyState.kStateDisabled
  · simp only [hpend, hphy, if_true, hm, Bool.false_eq_true, if_false]
    rfl
  · simp only [hpend, hphy, hguard, Bool.not_false, if_true, hm, Bool.false_eq_true,
      if_false]

/-- C7: when the acquire of the guard fails, FilterSendNetBufferLists on a finite chain
returns, every node of the chain has status NDIS_STATUS_PAUSED, the chain still has the
same head and the same nodes in the same order, and apart from trace lines the calls are the
failed acquire followed by one NdisFSendNetBufferListsComplete on the head, whose flag has
the dispatch-level bit exactly when the send flags have it; nothing is queued to the
worker, nothing is passed to NdisFReturnNetBufferLists and the guard is not released. -/
theorem FilterSendNetBufferLists_paused (fuel : Nat) (mem : Mem) (pFilter : MS_FILTER)
    (NetBufferLists : PNET_BUFFER_LIST) (PortNumber : NDIS_PORT_NUMBER) (SendFlags : Nat)
    (l : List PNET_BUFFER_LIST) (hchain : IsChain mem NetBufferLists l)
    (hfuel : l.length ≤ fuel)
    (hguard : (ExAcquireRundownProtection pFilter.DataPathRundown).1 = false) :
    ∃ out cf, FilterSendNetBufferLists fuel mem pFilter NetBufferLists PortNumber SendFlags
        = some out ∧
      (∀ a ∈ l, (out.mem.nbl a).Status = NDIS_STATUS_PAUSED) ∧
      IsChain out.mem NetBufferLists l ∧
      withoutLog out.trace = [Call.ExAcquireRundownProtection,
        Call.NdisFSendNetBufferListsComplete pFilter.FilterHandle NetBufferLists cf] ∧
      ((cf &&& NDIS_SEND_COMPLETE_FLAGS_DISPATCH_LEVEL ≠ 0) ↔
        (SendFlags &&& NDIS_SEND_FLAGS_DISPATCH_LEVEL ≠ 0)) := by
  refine ⟨_, if NDIS_TEST_SEND_AT_DISPATCH_LEVEL SendFlags
      then NDIS_SEND_COMPLETE_FLAGS_DISPATCH_LEVEL else 0,
    FilterSend_paused_eq fuel mem pFilter NetBufferLists PortNumber SendFlags l hchain hfuel
      hguard, ?_, ?_, ?_, ?_⟩
  · intro a ha
    exact markAll_status ha
  · exact isChain_markAll l _ hchain
  · simp [withoutLog, Call.isLog]
  · unfold NDIS_TEST_SEND_AT_DISPATCH_LEVEL
    by_cases h : SendFlags &&& NDIS_SEND_FLAGS_DISPATCH_LEVEL = 0
    · simp [h]
    · simp [h, NDIS_SEND_COMPLETE_FLAGS_DISPATCH_LEVEL]

theorem FilterSendNetBufferLists_paused_witness :
    ∃ out cf, FilterSendNetBufferLists 3 exMem (exFilter false []) 1 0 1 = some out ∧
      (∀ a ∈ [1, 2, 3], (out.mem.nbl a).Status = NDIS_STATUS_PAUSED) ∧
      IsChain out.mem 1 [1, 2, 3] ∧
      withoutLog out.trace = [Call.ExAcquireRundownProtection,
        Call.NdisFSendNetBufferListsComplete (exFilter false []).FilterHandle 1 cf] ∧
      ((cf &&& NDIS_SEND_COMPLETE_FLAGS_DISPATCH_LEVEL ≠ 0) ↔
        (1 &&& NDIS_SEND_FLAGS_DISPATCH_LEVEL ≠ 0)) :=
  FilterSendNetBufferLists_paused 3 exMem (exFilter false []) 1 0 1 [1, 2, 3] exMem_chain
    (by decide) rfl

/-- C8: when the receive flags say the call cannot pend, FilterReceiveNetBufferLists on a
finite chain returns, every node of the chain has status NDIS_STATUS_NOT_SUPPORTED, and
apart from trace lines it makes no call at all (no acquire of the guard, no hand-over to the
worker, no NdisFReturnNetBufferLists); the filter context, guard included, is unchanged.
This holds for every phy-state and every guard state. -/
theorem FilterReceiveNetBufferLists_cannot_pend (fuel : Nat) (mem : Mem) (pFilter : MS_FILTER)
    (NetBufferLists : PNET_BUFFER_LIST) (PortNumber : NDIS_PORT_NUMBER)
    (NumberOfNetBufferLists : Nat) (ReceiveFlags : Nat)
    (l : List PNET_BUFFER_LIST) (hchain : IsChain mem NetBufferLists l)
    (hfuel : l.length ≤ fuel)
    (hpend : NDIS_TEST_RECEIVE_CANNOT_PEND ReceiveFlags = true) :
    ∃ out, FilterReceiveNetBufferLists fuel mem pFilter NetBufferLists PortNumber
        NumberOfNetBufferLists ReceiveFlags = some out ∧
      (∀ a ∈ l, (out.mem.nbl a).Status = NDIS_STATUS_NOT_SUPPORTED) ∧
      IsChain out.mem NetBufferLists l ∧
      withoutLog out.trace = [] ∧
      out.filter = pFilter := by
  refine ⟨_, FilterReceive_cannot_pend_eq fuel mem pFilter NetBufferLists PortNumber
    NumberOfNetBufferLists ReceiveFlags l hchain hfuel hpend, ?_, ?_, ?_, ?_⟩
  · intro a ha
    exact markAll_status ha
  · exact isChain_markAll l _ hchain
  · simp [withoutLog, Call.isLog]
  · rfl

theorem FilterReceiveNetBufferLists_cannot_pend_witness :
    ∃ out, FilterReceiveNetBufferLists 3 exMem (exFilter true []) 1 0 3
        NDIS_RECEIVE_FLAGS_RESOURCES = some out ∧
      (∀ a ∈ [1, 2, 3], (out.mem.nbl a).Status = NDIS_STATUS_NOT_SUPPORTED) ∧
      IsChain out.mem 1 [1, 2, 3] ∧
      withoutLog out.trace = [] ∧
      out.filter = exFilter true [] :=
  FilterReceiveNetBufferLists_cannot_pend 3 exMem (exFilter true []) 1 0 3
    NDIS_RECEIVE_FLAGS_RESOURCES [1, 2, 3] exMem_chain (by decide) (by decide)

/-- C6, as stated, fails: with the guard disabled and receive flags that carry
NDIS_RECEIVE_FLAGS_RESOURCES, the node of a one-node chain ends with status
NDIS_STATUS_NOT_SUPPORTED, which is not NDIS_STATUS_PAUSED, and the chain is not passed to
NdisFReturnNetBufferLists (apart from trace lines no call is made). -/
theorem FilterReceiveNetBufferLists_paused_counterexample :
    (ExAcquireRundownProtection (exFilter false []).DataPathRundown).1 = false ∧
    IsChain exMem 3 [3] ∧
    ∃ out, FilterReceiveNetBufferLists 1 exMem (exFilter false []) 3 0 1
        NDIS_RECEIVE_FLAGS_RESOURCES = some out ∧
      (out.mem.nbl 3).Status = NDIS_STATUS_NOT_SUPPORTED ∧
      (out.mem.nbl 3).Status ≠ NDIS_STATUS_PAUSED ∧
      withoutLog out.trace = [] := by
  refine ⟨rfl, ⟨rfl, by decide, rfl⟩, _,
    FilterReceive_cannot_pend_eq 1 exMem (exFilter false []) 3 0 1
      NDIS_RECEIVE_FLAGS_RESOURCES [3] ⟨rfl, by decide, rfl⟩ (by decide) (by decide),
    ?_, ?_, ?_⟩
  · simp [markAll]
  · simp [markAll, NDIS_STATUS_NOT_SUPPORTED, NDIS_STATUS_PAUSED]
  · simp [withoutLog, Call.isLog]

/-- C6, amended: when the receive flags allow pending and the acquire of the guard fails,
FilterReceiveNetBufferLists on a finite chain returns, every node of the chain has status
NDIS_STATUS_PAUSED, the chain keeps its head and node order, and apart from trace lines the
calls are the failed acquire (absent when the phy-state is Disabled) followed by one
NdisFReturnNetBufferLists on the head; nothing is queued to the worker. -/
theorem FilterReceiveNetBufferLists_paused (fuel : Nat) (mem : Mem) (pFilter : MS_FILTER)
    (NetBufferLists : PNET_BUFFER_LIST) (PortNumber : NDIS_PORT_NUMBER)
    (NumberOfNetBufferLists : Nat) (ReceiveFlags : Nat)
    (l : List PNET_BUFFER_LIST) (hchain : IsChain mem NetBufferLists l)
    (hfuel : l.length ≤ fuel)
    (hpend : NDIS_TEST_RECEIVE_CANNOT_PEND ReceiveFlags = false)
    (hguard : (ExAcquireRundownProtection pFilter.DataPathRundown).1 = false) :
    ∃ out, FilterReceiveNetBufferLists fuel mem pFilter NetBufferLists PortNumber
        NumberOfNetBufferLists ReceiveFlags = some out ∧
      (∀ a ∈ l, (out.mem.nbl a).Status = NDIS_STATUS_PAUSED) ∧
      IsChain out.mem NetBufferLists l ∧
      withoutLog out.trace =
        (if pFilter.otPhyState = otPhyState.kStateDisabled then []
          else [Call.ExAcquireRundownProtection]) ++
        [Call.NdisFReturnNetBufferLists pFilter.FilterHandle NetBufferLists
          (if NDIS_TEST_RECEIVE_AT_DISPATCH_LEVEL ReceiveFlags
            then NDIS_RETURN_FLAGS_DISPATCH_LEVEL else 0)] := by
  refine ⟨_, FilterReceive_paused_eq fuel mem pFilter NetBufferLists PortNumber
    NumberOfNetBufferLists ReceiveFlags l hchain hfuel hpend hguard, ?_, ?_, ?_⟩
  · intro a ha
    exact markAll_status ha
  · exact isChain_markAll l _ hchain
  · by_cases hphy : pFilter.otPhyState = otPhyState.kStateDisabled <;>
      simp [withoutLog, Call.isLog, hphy]

theorem FilterReceiveNetBufferLists_paused_witness :
    ∃ out, FilterReceiveNetBufferLists 3 exMem (exFilter false []) 1 0 3 0 = some out ∧
      (∀ a ∈ [1, 2, 3], (out.mem.nbl a).Status = NDIS_STATUS_PAUSED) ∧
      IsChain out.mem 1 [1, 2, 3] ∧
      withoutLog out.trace =
        (if (exFilter false []).otPhyState = otPhyState.kStateDisabled then []
          else [Call.ExAcquireRundownProtection]) ++
        [Call.NdisFReturnNetBufferLists (exFilter false []).FilterHandle 1
          (if NDIS_TEST_RECEIVE_AT_DISPATCH_LEVEL 0
            then NDIS_RETURN_FLAGS_DISPATCH_LEVEL else 0)] :=
  FilterReceiveNetBufferLists_paused 3 exMem (exFilter false []) 1 0 3 0 [1, 2, 3]
    exMem_chain (by decide) (by decide) rfl

/-! ## Receive return -/

/-- C1: in every call of otLwfReceiveIp6DatagramCallback, whatever the datagram, the filter
context, the memory and the results of the outside calls, the last call made is otFreeMessage
on the datagram, and it is the only otFreeMessage call. -/
theorem otLwfReceiveIp6DatagramCallback_frees_message_once (ext : Externals) (mem : Mem)
    (aMessage : otMessage) (pFilter : MS_FILTER) :
    (otLwfReceiveIp6DatagramCallback ext mem aMessage pFilter).2.getLast? =
        some (Call.otFreeMessage aMessage.handle) ∧
      (otLwfReceiveIp6DatagramCallback ext mem aMessage pFilter).2.filter Call.isFreeMessage =
        [Call.otFreeMessage aMessage.handle] := by
  unfold otLwfReceiveIp6DatagramCallback
  rcases hbuf : ext.NdisGetDataBuffer with _ | buf0 <;>
    simp only [] <;> split_ifs <;>
    simp [undoFreeExit, Call.isFreeMessage, List.getLast?_append, List.filter_append]

theorem readInto_eq (aMessage : otMessage) (buf0 : Nat → UCHAR) (i : Nat)
    (hi : i < aMessage.bytes.length) :
    otReadMessageInto aMessage 0 (aMessage.bytes.length : Int) buf0 i =
      datagramByte aMessage i := by
  unfold otReadMessageInto datagramByte
  have h : (i : Int) < (aMessage.bytes.length : Int) := by exact_mod_cast hi
  simp only [h, if_true, Nat.zero_add]
  rw [List.getD_eq_getElem _ _ hi, List.getD_eq_getElem _ _ hi]

theorem destination_readInto (aMessage : otMessage) (buf0 : Nat → UCHAR)
    (hlen : 40 ≤ aMessage.bytes.length) :
    v6Header_DestinationAddress (otReadMessageInto aMessage 0 (aMessage.bytes.length : Int) buf0)
      = datagramDestination aMessage := by
  unfold datagramDestination v6Header_DestinationAddress
  apply Subtype.ext
  simp only
  apply List.map_congr_left
  intro i hi
  have : i < 16 := List.mem_range.mp hi
  exact readInto_eq aMessage buf0 (24 + i) (by omega)

theorem multicast_iff_byte (aMessage : otMessage) :
    IN6_IS_ADDR_MULTICAST (datagramDestination aMessage) = true ↔
      datagramByte aMessage 24 = 0xFF := by
  unfold IN6_IS_ADDR_MULTICAST datagramDestination v6Header_DestinationAddress
  simp [List.range_succ_eq_map]

/-- The disposition calls of the callback, case by case. -/
theorem callback_dispositions (ext : Externals) (mem : Mem) (aMessage : otMessage)
    (pFilter : MS_FILTER) :
    (otLwfReceiveIp6DatagramCallback ext mem aMessage pFilter).2.filter Call.isDisposition =
      if ext.NdisAllocateNetBufferAndNetBufferList = 0 then []
      else if ext.NdisRetreatNetBufferDataStart ≠ NDIS_STATUS_SUCCESS then
        [Call.NdisFreeNetBufferList ext.NdisAllocateNetBufferAndNetBufferList]
      else
        match ext.NdisGetDataBuffer with
        | none =>
          [Call.NdisAdvanceNetBufferDataStart
              (mem.nbl ext.NdisAllocateNetBufferAndNetBufferList).FirstNetBuffer
              (otGetMessageLength aMessage),
            Call.NdisFreeNetBufferList ext.NdisAllocateNetBufferAndNetBufferList]
        | some buf0 =>
          if ext.otReadMessage ≠ (otGetMessageLength aMessage : Int) ∨
              dropsByAddressScope pFilter
                (otReadMessageInto aMessage 0 ext.otReadMessage buf0) = true ∨
              dropsByMleRule pFilter (otGetMessageLength aMessage)
                (otReadMessageInto aMessage 0 ext.otReadMessage buf0) = true then
            [Call.NdisAdvanceNetBufferDataStart
                (mem.nbl ext.NdisAllocateNetBufferAndNetBufferList).FirstNetBuffer
                (otGetMessageLength aMessage),
              Call.NdisFreeNetBufferList ext.NdisAllocateNetBufferAndNetBufferList]
          else
            [Call.NdisFIndicateReceiveNetBufferLists pFilter.FilterHandle
              ext.NdisAllocateNetBufferAndNetBufferList NDIS_DEFAULT_PORT_NUMBER 1 0] := by
  unfold otLwfReceiveIp6DatagramCallback
  rcases hbuf : ext.NdisGetDataBuffer with _ | buf0 <;>
    simp only [] <;> split_ifs <;>
    simp_all [undoFreeExit, Call.isDisposition, List.filter_append, tagIpv6]

theorem nextHeader_readInto (aMessage : otMessage) (buf0 : Nat → UCHAR)
    (hlen : 7 ≤ aMessage.bytes.length) :
    v6Header_NextHeader (otReadMessageInto aMessage 0 (aMessage.bytes.length : Int) buf0)
      = datagramNextHeader aMessage := by
  unfold v6Header_NextHeader datagramNextHeader
  rw [readInto_eq aMessage buf0 6 (by omega)]

theorem dropsByMleRule_iff (pFilter : MS_FILTER) (messageLength : Nat) (buf : Nat → UCHAR) :
    dropsByMleRule pFilter messageLength buf = true ↔
      v6Header_NextHeader buf = IPPROTO_UDP ∧ 48 ≤ messageLength ∧
      pFilter.otLinkLocalAddr = v6Header_DestinationAddress buf ∧
      (buf 40).val = 0x4D ∧ (buf 41).val = 0x4C ∧ (buf 42).val = 0x4D ∧ (buf 43).val = 0x4C := by
  have h40 := (buf 40).isLt
  have h41 := (buf 41).isLt
  have h42 := (buf 42).isLt
  have h43 := (buf 43).isLt
  unfold dropsByMleRule UdpHeader_DestinationPort UdpHeader_SourcePort loadUSHORT
    sizeof_IPV6_HEADER sizeof_UDPHeader
  have hswap : RtlUshortByteSwap 19788 = 19533 := by decide
  rw [hswap]
  simp only [Bool.and_eq_true, beq_iff_eq, decide_eq_true_eq, Nat.add_zero, Nat.reduceAdd]
  constructor
  · rintro ⟨⟨⟨h1, h2⟩, h3⟩, h4, h5⟩
    refine ⟨h1, by omega, h3, ?_, ?_, ?_, ?_⟩ <;> omega
  · rintro ⟨h1, h2, h3, h4, h5, h6, h7⟩
    refine ⟨⟨⟨h1, by omega⟩, h3⟩, ?_, ?_⟩ <;> omega

theorem dropsByMleRule_datagram (pFilter : MS_FILTER) (aMessage : otMessage)
    (buf0 : Nat → UCHAR) (hlen : 48 ≤ aMessage.bytes.length) :
    dropsByMleRule pFilter aMessage.bytes.length
        (otReadMessageInto aMessage 0 (aMessage.bytes.length : Int) buf0) = true ↔
      datagramNextHeader aMessage = IPPROTO_UDP ∧
      pFilter.otLinkLocalAddr = datagramDestination aMessage ∧
      datagramSourcePort aMessage = 19788 ∧ datagramDestinationPort aMessage = 19788 := by
  rw [dropsByMleRule_iff, nextHeader_readInto aMessage buf0 (by omega),
    destination_readInto aMessage buf0 (by omega),
    readInto_eq aMessage buf0 40 (by omega), readInto_eq aMessage buf0 41 (by omega),
    readInto_eq aMessage buf0 42 (by omega), readInto_eq aMessage buf0 43 (by omega)]
  have h40 := (datagramByte aMessage 40).isLt
  have h41 := (datagramByte aMessage 41).isLt
  have h42 := (datagramByte aMessage 42).isLt
  have h43 := (datagramByte aMessage 43).isLt
  unfold datagramSourcePort datagramDestinationPort
  constructor
  · rintro ⟨h1, _, h3, h4, h5, h6, h7⟩
    refine ⟨h1, h3, ?_, ?_⟩ <;> omega
  · rintro ⟨h1, h3, h4, h5⟩
    refine ⟨h1, hlen, h3, ?_, ?_, ?_, ?_⟩ <;> omega

theorem dropsByAddressScope_datagram (pFilter : MS_FILTER) (aMessage : otMessage)
    (buf0 : Nat → UCHAR) (hlen : 40 ≤ aMessage.bytes.length) :
    dropsByAddressScope pFilter
        (otReadMessageInto aMessage 0 (aMessage.bytes.length : Int) buf0) = true ↔
      datagramByte aMessage 24 ≠ 0xFF ∧
      otLwfFindCachedAddrIndex pFilter (datagramDestination aMessage) = -1 := by
  unfold dropsByAddressScope
  rw [destination_readInto aMessage buf0 hlen]
  simp only [Bool.and_eq_true, Bool.not_eq_true', decide_eq_true_eq]
  rw [← Bool.not_eq_true, multicast_iff_byte]

theorem filter_isIndicate (t : List Call) :
    t.filter Call.isIndicate = (t.filter Call.isDisposition).filter Call.isIndicate := by
  rw [List.filter_filter]
  congr 1
  funext c
  cases c <;> rfl

theorem count_free (t : List Call) (p : PNET_BUFFER_LIST) :
    t.count (Call.NdisFreeNetBufferList p) =
      (t.filter Call.isDisposition).count (Call.NdisFreeNetBufferList p) := by
  rw [List.count_filter]
  rfl

theorem callback_not_allocated (ext : Externals) (mem : Mem) (aMessage : otMessage)
    (pFilter : MS_FILTER) (halloc : ext.NdisAllocateNetBufferAndNetBufferList = 0) :
    (otLwfReceiveIp6DatagramCallback ext mem aMessage pFilter).2.filter Call.isDisposition
      = [] := by
  rw [callback_dispositions]
  simp [halloc]

theorem callback_fails (ext : Externals) (mem : Mem) (aMessage : otMessage)
    (pFilter : MS_FILTER) (halloc : ext.NdisAllocateNetBufferAndNetBufferList ≠ 0)
    (h : DeliveryFails ext aMessage pFilter) :
    (otLwfReceiveIp6DatagramCallback ext mem aMessage pFilter).2.filter Call.isDisposition =
      (if ext.NdisRetreatNetBufferDataStart = NDIS_STATUS_SUCCESS then
          [Call.NdisAdvanceNetBufferDataStart
            (mem.nbl ext.NdisAllocateNetBufferAndNetBufferList).FirstNetBuffer
            (otGetMessageLength aMessage)]
        else []) ++
      [Call.NdisFreeNetBufferList ext.NdisAllocateNetBufferAndNetBufferList] := by
  rw [callback_dispositions]
  unfold DeliveryFails at h
  by_cases hret : ext.NdisRetreatNetBufferDataStart = NDIS_STATUS_SUCCESS
  · rcases hbuf : ext.NdisGetDataBuffer with _ | buf0
    · simp [halloc, hret]
    · simp only [halloc, hret, if_false, if_true, ne_eq, not_true_eq_false]
      rw [if_pos]
      · rfl
      · rcases h with h | h | h | ⟨b, hb, h⟩
        · exact absurd hret h
        · rw [hbuf] at h; cases h
        · exact Or.inl h
        · rw [hbuf] at hb
          cases hb
          exact Or.inr h
  · simp [halloc, hret]

theorem callback_succeeds (ext : Externals) (mem : Mem) (aMessage : otMessage)
    (pFilter : MS_FILTER) (halloc : ext.NdisAllocateNetBufferAndNetBufferList ≠ 0)
    (h : ¬ DeliveryFails ext aMessage pFilter) :
    (otLwfReceiveIp6DatagramCallback ext mem aMessage pFilter).2.filter Call.isDisposition =
      [Call.NdisFIndicateReceiveNetBufferLists pFilter.FilterHandle
        ext.NdisAllocateNetBufferAndNetBufferList NDIS_DEFAULT_PORT_NUMBER 1 0] := by
  rw [callback_dispositions]
  unfold DeliveryFails at h
  push_neg at h
  obtain ⟨hret, hbuf, hread, hdrop⟩ := h
  rcases hb : ext.NdisGetDataBuffer with _ | buf0
  · exact absurd hb hbuf
  · have hd := hdrop buf0 hb
    simp only [halloc, hret, if_false, ne_eq, not_true_eq_false]
    rw [if_neg]
    rintro (h1 | h1 | h1)
    · exact h1 hread
    · exact hd.1 h1
    · exact hd.2 h1

theorem callback_fails_no_indicate (ext : Externals) (mem : Mem) (aMessage : otMessage)
    (pFilter : MS_FILTER) (h : DeliveryFails ext aMessage pFilter) :
    (otLwfReceiveIp6DatagramCallback ext mem aMessage pFilter).2.filter Call.isIndicate = [] ∧
    (ext.NdisAllocateNetBufferAndNetBufferList ≠ 0 →
      (otLwfReceiveIp6DatagramCallback ext mem aMessage pFilter).2.count
        (Call.NdisFreeNetBufferList ext.NdisAllocateNetBufferAndNetBufferList) = 1) := by
  constructor
  · rw [filter_isIndicate]
    by_cases halloc : ext.NdisAllocateNetBufferAndNetBufferList = 0
    · rw [callback_not_allocated ext mem aMessage pFilter halloc]
      rfl
    · rw [callback_fails ext mem aMessage pFilter halloc h]
      by_cases hret : ext.NdisRetreatNetBufferDataStart = NDIS_STATUS_SUCCESS <;>
        simp [hret, Call.isIndicate]
  · intro halloc
    rw [count_free, callback_fails ext mem aMessage pFilter halloc h]
    by_cases hret : ext.NdisRetreatNetBufferDataStart = NDIS_STATUS_SUCCESS <;>
      simp [hret]

/-- When the steps before the filters succeed, delivery fails exactly when a filter
drops the datagram. -/
theorem deliveryFails_of_drop (ext : Externals) (aMessage : otMessage) (pFilter : MS_FILTER)
    (hdrop : ext.otReadMessage = (aMessage.bytes.length : Int) →
      ∀ buf0, dropsByAddressScope pFilter
          (otReadMessageInto aMessage 0 (aMessage.bytes.length : Int) buf0) = true ∨
        dropsByMleRule pFilter aMessage.bytes.length
          (otReadMessageInto aMessage 0 (aMessage.bytes.length : Int) buf0) = true) :
    DeliveryFails ext aMessage pFilter := by
  unfold DeliveryFails otGetMessageLength
  by_cases hret : ext.NdisRetreatNetBufferDataStart = NDIS_STATUS_SUCCESS
  · rcases hbuf : ext.NdisGetDataBuffer with _ | buf0
    · exact Or.inr (Or.inl rfl)
    · by_cases hread : ext.otReadMessage = (aMessage.bytes.length : Int)
      · refine Or.inr (Or.inr (Or.inr ⟨buf0, rfl, ?_⟩))
        rw [hread]
        exact hdrop hread buf0
      · exact Or.inr (Or.inr (Or.inl hread))
  · exact Or.inl hret

/-- C2: for a datagram of at least 40 bytes whose destination address (bytes 24 to 39)
does not start with 0xFF and for which otLwfFindCachedAddrIndex returns -1, the callback
never calls NdisFIndicateReceiveNetBufferLists, whatever the results of the outside calls;
and when a list was allocated, NdisFreeNetBufferList is called on it exactly once. -/
theorem otLwfReceiveIp6DatagramCallback_drops_foreign_unicast (ext : Externals) (mem : Mem)
    (aMessage : otMessage) (pFilter : MS_FILTER)
    (hlen : 40 ≤ otGetMessageLength aMessage)
    (hunicast : datagramByte aMessage 24 ≠ 0xFF)
    (hforeign : otLwfFindCachedAddrIndex pFilter (datagramDestination aMessage) = -1) :
    (otLwfReceiveIp6DatagramCallback ext mem aMessage pFilter).2.filter Call.isIndicate = [] ∧
    (ext.NdisAllocateNetBufferAndNetBufferList ≠ 0 →
      (otLwfReceiveIp6DatagramCallback ext mem aMessage pFilter).2.count
        (Call.NdisFreeNetBufferList ext.NdisAllocateNetBufferAndNetBufferList) = 1) := by
  apply callback_fails_no_indicate
  apply deliveryFails_of_drop
  intro _ buf0
  exact Or.inl ((dropsByAddressScope_datagram pFilter aMessage buf0 hlen).mpr
    ⟨hunicast, hforeign⟩)

theorem otLwfReceiveIp6DatagramCallback_drops_foreign_unicast_witness :
    (otLwfReceiveIp6DatagramCallback (exExt 40) exMem exMsgGlobal
        (exFilterWith exLinkLocal [exLinkLocal])).2.filter Call.isIndicate = [] ∧
    ((exExt 40).NdisAllocateNetBufferAndNetBufferList ≠ 0 →
      (otLwfReceiveIp6DatagramCallback (exExt 40) exMem exMsgGlobal
          (exFilterWith exLinkLocal [exLinkLocal])).2.count
        (Call.NdisFreeNetBufferList (exExt 40).NdisAllocateNetBufferAndNetBufferList) = 1) :=
  otLwfReceiveIp6DatagramCallback_drops_foreign_unicast (exExt 40) exMem exMsgGlobal
    (exFilterWith exLinkLocal [exLinkLocal]) (by decide) (by decide) (by decide)

theorem not_deliveryFails_of_pass (ext : Externals) (aMessage : otMessage)
    (pFilter : MS_FILTER) (buf0 : Nat → UCHAR)
    (hret : ext.NdisRetreatNetBufferDataStart = NDIS_STATUS_SUCCESS)
    (hbuf : ext.NdisGetDataBuffer = some buf0)
    (hread : ext.otReadMessage = (aMessage.bytes.length : Int))
    (hscope : dropsByAddressScope pFilter
      (otReadMessageInto aMessage 0 (aMessage.bytes.length : Int) buf0) = false)
    (hmle : dropsByMleRule pFilter aMessage.bytes.length
      (otReadMessageInto aMessage 0 (aMessage.bytes.length : Int) buf0) = false) :
    ¬ DeliveryFails ext aMessage pFilter := by
  unfold DeliveryFails otGetMessageLength
  rintro (h | h | h | ⟨b, hb, h⟩)
  · exact h hret
  · rw [hbuf] at h; cases h
  · exact h hread
  · rw [hbuf] at hb
    cases hb
    rw [hread, hscope, hmle] at h
    simp at h

theorem multicast_buffer_iff (buf : Nat → UCHAR) :
    IN6_IS_ADDR_MULTICAST (v6Header_DestinationAddress buf) = true ↔ buf 24 = 0xFF := by
  unfold IN6_IS_ADDR_MULTICAST v6Header_DestinationAddress
  simp [List.range_succ_eq_map]

theorem datagramByte_length (aMessage : otMessage) (i : Nat)
    (h : datagramByte aMessage i ≠ 0) : i < aMessage.bytes.length := by
  by_contra hlt
  apply h
  unfold datagramByte
  exact List.getD_eq_default _ _ (Nat.le_of_not_lt hlt)

/-- C3: for every datagram whose destination address is multicast (byte 24 is 0xFF),
whatever its length and whatever the cached address set, in a filter context whose
link-local address is not a multicast address (no link-local address is), when allocation,
reservation, contiguous view and a full-length copy all succeed, the only disposition call
of the callback is one NdisFIndicateReceiveNetBufferLists on the allocated list with the
default port and count 1: the list is indicated once and neither undone nor freed. -/
theorem otLwfReceiveIp6DatagramCallback_indicates_multicast (ext : Externals) (mem : Mem)
    (aMessage : otMessage) (pFilter : MS_FILTER) (buf0 : Nat → UCHAR)
    (hmulticast : datagramByte aMessage 24 = 0xFF)
    (hlinklocal : IN6_IS_ADDR_MULTICAST pFilter.otLinkLocalAddr = false)
    (halloc : ext.NdisAllocateNetBufferAndNetBufferList ≠ 0)
    (hret : ext.NdisRetreatNetBufferDataStart = NDIS_STATUS_SUCCESS)
    (hbuf : ext.NdisGetDataBuffer = some buf0)
    (hread : ext.otReadMessage = (otGetMessageLength aMessage : Int)) :
    (otLwfReceiveIp6DatagramCallback ext mem aMessage pFilter).2.filter Call.isDisposition =
      [Call.NdisFIndicateReceiveNetBufferLists pFilter.FilterHandle
        ext.NdisAllocateNetBufferAndNetBufferList NDIS_DEFAULT_PORT_NUMBER 1 0] := by
  unfold otGetMessageLength at hread
  have h24 : 24 < aMessage.bytes.length :=
    datagramByte_length aMessage 24 (by rw [hmulticast]; decide)
  have hmc : IN6_IS_ADDR_MULTICAST (v6Header_DestinationAddress
      (otReadMessageInto aMessage 0 (aMessage.bytes.length : Int) buf0)) = true := by
    rw [multicast_buffer_iff, readInto_eq aMessage buf0 24 h24]
    exact hmulticast
  apply callback_succeeds ext mem aMessage pFilter halloc
  apply not_deliveryFails_of_pass ext aMessage pFilter buf0 hret hbuf hread
  · unfold dropsByAddressScope
    rw [hmc]
    rfl
  · rw [← Bool.not_eq_true]
    intro h
    have h3 := ((dropsByMleRule_iff _ _ _).mp h).2.2.1
    rw [h3, hmc] at hlinklocal
    cases hlinklocal

theorem otLwfReceiveIp6DatagramCallback_indicates_multicast_witness :
    (otLwfReceiveIp6DatagramCallback (exExt 48) exMem exMsgAllNodes
        (exFilterWith exLinkLocal [])).2.filter Call.isDisposition =
      [Call.NdisFIndicateReceiveNetBufferLists (exFilterWith exLinkLocal []).FilterHandle
        (exExt 48).NdisAllocateNetBufferAndNetBufferList NDIS_DEFAULT_PORT_NUMBER 1 0] :=
  otLwfReceiveIp6DatagramCallback_indicates_multicast (exExt 48) exMem exMsgAllNodes
    (exFilterWith exLinkLocal []) (fun _ => 0) (by decide) (by decide) (by decide) rfl rfl rfl

/-- C4, as stated, fails: the 44-byte datagram whose destination is otLinkLocalAddr, whose
next-header is UDP and whose bytes 40 to 43 are the ports 19788 and 19788 is indicated
upward when the link-local address is in the cached set and every outside call succeeds. -/
theorem otLwfReceiveIp6DatagramCallback_mle_counterexample :
    datagramDestination exMsgMleShort = (exFilterWith exLinkLocal [exLinkLocal]).otLinkLocalAddr ∧
    datagramNextHeader exMsgMleShort = IPPROTO_UDP ∧
    datagramSourcePort exMsgMleShort = 19788 ∧
    datagramDestinationPort exMsgMleShort = 19788 ∧
    (otLwfReceiveIp6DatagramCallback (exExt 44) exMem exMsgMleShort
        (exFilterWith exLinkLocal [exLinkLocal])).2.filter Call.isDisposition =
      [Call.NdisFIndicateReceiveNetBufferLists 7 5 NDIS_DEFAULT_PORT_NUMBER 1 0] := by
  decide

/-- C4, amended: for a datagram of at least 48 bytes whose destination address equals
otLinkLocalAddr, whose next-header is UDP and whose UDP source and destination ports both
equal 19788, the callback never calls NdisFIndicateReceiveNetBufferLists, whatever the
cached address set and the results of the outside calls; and when a list was allocated,
NdisFreeNetBufferList is called on it exactly once. -/
theorem otLwfReceiveIp6DatagramCallback_drops_mle (ext : Externals) (mem : Mem)
    (aMessage : otMessage) (pFilter : MS_FILTER)
    (hlen : 48 ≤ otGetMessageLength aMessage)
    (hdest : datagramDestination aMessage = pFilter.otLinkLocalAddr)
    (hudp : datagramNextHeader aMessage = IPPROTO_UDP)
    (hsrc : datagramSourcePort aMessage = 19788)
    (hdst : datagramDestinationPort aMessage = 19788) :
    (otLwfReceiveIp6DatagramCallback ext mem aMessage pFilter).2.filter Call.isIndicate = [] ∧
    (ext.NdisAllocateNetBufferAndNetBufferList ≠ 0 →
      (otLwfReceiveIp6DatagramCallback ext mem aMessage pFilter).2.count
        (Call.NdisFreeNetBufferList ext.NdisAllocateNetBufferAndNetBufferList) = 1) := by
  apply callback_fails_no_indicate
  apply deliveryFails_of_drop
  intro _ buf0
  exact Or.inr ((dropsByMleRule_datagram pFilter aMessage buf0 hlen).mpr
    ⟨hudp, hdest.symm, hsrc, hdst⟩)

theorem otLwfReceiveIp6DatagramCallback_drops_mle_witness :
    (otLwfReceiveIp6DatagramCallback (exExt 48) exMem exMsgMle
        (exFilterWith exLinkLocal [exLinkLocal])).2.filter Call.isIndicate = [] ∧
    ((exExt 48).NdisAllocateNetBufferAndNetBufferList ≠ 0 →
      (otLwfReceiveIp6DatagramCallback (exExt 48) exMem exMsgMle
          (exFilterWith exLinkLocal [exLinkLocal])).2.count
        (Call.NdisFreeNetBufferList (exExt 48).NdisAllocateNetBufferAndNetBufferList) = 1) :=
  otLwfReceiveIp6DatagramCallback_drops_mle (exExt 48) exMem exMsgMle
    (exFilterWith exLinkLocal [exLinkLocal]) (by decide) (by decide) (by decide) (by decide)
    (by decide)

theorem datagramByte_agree (m1 m : otMessage)
    (hhead : m1.bytes.take 8 = m.bytes.take 8)
    (htail : m1.bytes.drop 24 = m.bytes.drop 24) (i : Nat) (hi : i < 8 ∨ 24 ≤ i) :
    m1.bytes[i]? = m.bytes[i]? := by
  rcases hi with h | h
  · have h1 := congrArg (fun l => l[i]?) hhead
    simpa [List.getElem?_take, h] using h1
  · have h1 := congrArg (fun l => l[i - 24]?) htail
    simp only [List.getElem?_drop] at h1
    rwa [Nat.add_sub_cancel' h] at h1

theorem readInto_agree (m1 m : otMessage) (r : Int) (buf0 : Nat → UCHAR)
    (hhead : m1.bytes.take 8 = m.bytes.take 8)
    (htail : m1.bytes.drop 24 = m.bytes.drop 24) (i : Nat) (hi : i < 8 ∨ 24 ≤ i) :
    otReadMessageInto m1 0 r buf0 i = otReadMessageInto m 0 r buf0 i := by
  unfold otReadMessageInto
  simp only [Nat.zero_add, List.getD_eq_getElem?_getD,
    datagramByte_agree m1 m hhead htail i hi]

theorem filters_agree (m1 m : otMessage) (r : Int) (buf0 : Nat → UCHAR)
    (pFilter : MS_FILTER) (len : Nat)
    (hhead : m1.bytes.take 8 = m.bytes.take 8)
    (htail : m1.bytes.drop 24 = m.bytes.drop 24) :
    v6Header_DestinationAddress (otReadMessageInto m1 0 r buf0) =
        v6Header_DestinationAddress (otReadMessageInto m 0 r buf0) ∧
      dropsByAddressScope pFilter (otReadMessageInto m1 0 r buf0) =
        dropsByAddressScope pFilter (otReadMessageInto m 0 r buf0) ∧
      dropsByMleRule pFilter len (otReadMessageInto m1 0 r buf0) =
        dropsByMleRule pFilter len (otReadMessageInto m 0 r buf0) := by
  have hb := readInto_agree m1 m r buf0 hhead htail
  have hdest : v6Header_DestinationAddress (otReadMessageInto m1 0 r buf0) =
      v6Header_DestinationAddress (otReadMessageInto m 0 r buf0) := by
    unfold v6Header_DestinationAddress
    apply Subtype.ext
    simp only
    apply List.map_congr_left
    intro i _
    exact hb (24 + i) (Or.inr (by omega))
  refine ⟨hdest, ?_, ?_⟩
  · unfold dropsByAddressScope
    rw [hdest]
  · unfold dropsByMleRule UdpHeader_DestinationPort UdpHeader_SourcePort loadUSHORT
      v6Header_NextHeader sizeof_IPV6_HEADER
    rw [hdest, hb 6 (Or.inl (by omega)), hb (40 + 0) (Or.inr (by omega)),
      hb (40 + 0 + 1) (Or.inr (by omega)), hb (40 + 2) (Or.inr (by omega)),
      hb (40 + 2 + 1) (Or.inr (by omega))]

/-- The callback reads a datagram only through its handle, its length, and its bytes
outside the source address. -/
theorem callback_source_independent (ext : Externals) (mem : Mem) (m1 m : otMessage)
    (pFilter : MS_FILTER) (hhandle : m1.handle = m.handle)
    (hlen : m1.bytes.length = m.bytes.length)
    (hhead : m1.bytes.take 8 = m.bytes.take 8)
    (htail : m1.bytes.drop 24 = m.bytes.drop 24) :
    otLwfReceiveIp6DatagramCallback ext mem m1 pFilter =
      otLwfReceiveIp6DatagramCallback ext mem m pFilter := by
  unfold otLwfReceiveIp6DatagramCallback otGetMessageLength
  rw [hhandle, hlen]
  rcases ext.NdisGetDataBuffer with _ | buf0
  · rfl
  · simp only []
    obtain ⟨h1, h2, h3⟩ := filters_agree m1 m ext.otReadMessage buf0 pFilter m.bytes.length
      hhead htail
    rw [h1, h2, h3]

/-- C5: (1) the internal-protocol rule holds of a buffer exactly when the next-header is
UDP, the message length is at least 48, the destination address is byte-equal to
otLinkLocalAddr and bytes 40 to 43 are 0x4D 0x4C 0x4D 0x4C (ports 19788 and 19788 in network
byte order); (2) when allocation, reservation, contiguous view and copy succeed, the
address-scope filter passes and the UDP ports of the datagram are not both 19788, the only
disposition call is one NdisFIndicateReceiveNetBufferLists on the allocated list; (3) two
datagrams with the same handle and length that differ only in bytes 8 to 23 (the source
address) give the same calls and the same memory. -/
theorem otLwfReceiveIp6DatagramCallback_mle_rule (ext : Externals) (mem : Mem)
    (aMessage m1 : otMessage) (pFilter : MS_FILTER) (buf : Nat → UCHAR) (messageLength : Nat) :
    (dropsByMleRule pFilter messageLength buf = true ↔
      v6Header_NextHeader buf = IPPROTO_UDP ∧ 48 ≤ messageLength ∧
      pFilter.otLinkLocalAddr = v6Header_DestinationAddress buf ∧
      (buf 40).val = 0x4D ∧ (buf 41).val = 0x4C ∧ (buf 42).val = 0x4D ∧ (buf 43).val = 0x4C) ∧
    (∀ buf0, ext.NdisAllocateNetBufferAndNetBufferList ≠ 0 →
      ext.NdisRetreatNetBufferDataStart = NDIS_STATUS_SUCCESS →
      ext.NdisGetDataBuffer = some buf0 →
      ext.otReadMessage = (otGetMessageLength aMessage : Int) →
      dropsByAddressScope pFilter
        (otReadMessageInto aMessage 0 ext.otReadMessage buf0) = false →
      ¬ (datagramSourcePort aMessage = 19788 ∧ datagramDestinationPort aMessage = 19788) →
      (otLwfReceiveIp6DatagramCallback ext mem aMessage pFilter).2.filter Call.isDisposition =
        [Call.NdisFIndicateReceiveNetBufferLists pFilter.FilterHandle
          ext.NdisAllocateNetBufferAndNetBufferList NDIS_DEFAULT_PORT_NUMBER 1 0]) ∧
    (m1.handle = aMessage.handle → m1.bytes.length = aMessage.bytes.length →
      m1.bytes.take 8 = aMessage.bytes.take 8 → m1.bytes.drop 24 = aMessage.bytes.drop 24 →
      otLwfReceiveIp6DatagramCallback ext mem m1 pFilter =
        otLwfReceiveIp6DatagramCallback ext mem aMessage pFilter) := by
  refine ⟨dropsByMleRule_iff pFilter messageLength buf, ?_,
    callback_source_independent ext mem m1 aMessage pFilter⟩
  intro buf0 halloc hret hbuf hread hscope hports
  unfold otGetMessageLength at hread
  rw [hread] at hscope
  apply callback_succeeds ext mem aMessage pFilter halloc
  apply not_deliveryFails_of_pass ext aMessage pFilter buf0 hret hbuf hread hscope
  rw [← Bool.not_eq_true]
  intro h
  by_cases h48 : 48 ≤ aMessage.bytes.length
  · obtain ⟨_, _, h3, h4⟩ := (dropsByMleRule_datagram pFilter aMessage buf0 h48).mp h
    exact hports ⟨h3, h4⟩
  · exact h48 ((dropsByMleRule_iff _ _ _).mp h).2.1

theorem otLwfReceiveIp6DatagramCallback_mle_rule_witness :
    (otLwfReceiveIp6DatagramCallback (exExt 48) exMem exMsgOtherPort
        (exFilterWith exLinkLocal [exLinkLocal])).2.filter Call.isDisposition =
      [Call.NdisFIndicateReceiveNetBufferLists
        (exFilterWith exLinkLocal [exLinkLocal]).FilterHandle
        (exExt 48).NdisAllocateNetBufferAndNetBufferList NDIS_DEFAULT_PORT_NUMBER 1 0] ∧
    otLwfReceiveIp6DatagramCallback (exExt 48) exMem exMsgOtherSource
        (exFilterWith exLinkLocal [exLinkLocal]) =
      otLwfReceiveIp6DatagramCallback (exExt 48) exMem exMsgOtherPort
        (exFilterWith exLinkLocal [exLinkLocal]) :=
  ⟨(otLwfReceiveIp6DatagramCallback_mle_rule (exExt 48) exMem exMsgOtherPort exMsgOtherSource
      (exFilterWith exLinkLocal [exLinkLocal]) (fun _ => 0) 48).2.1 (fun _ => 0)
      (by decide) rfl rfl rfl (by decide) (by decide),
   (otLwfReceiveIp6DatagramCallback_mle_rule (exExt 48) exMem exMsgOtherPort exMsgOtherSource
      (exFilterWith exLinkLocal [exLinkLocal]) (fun _ => 0) 48).2.2 rfl rfl (by decide)
      (by decide)⟩

theorem callback_retreat_mem (ext : Externals) (mem : Mem) (aMessage : otMessage)
    (pFilter : MS_FILTER) (halloc : ext.NdisAllocateNetBufferAndNetBufferList ≠ 0) :
    (otLwfReceiveIp6DatagramCallback ext mem aMessage pFilter).2.count
      (Call.NdisRetreatNetBufferDataStart
        (mem.nbl ext.NdisAllocateNetBufferAndNetBufferList).FirstNetBuffer
        (otGetMessageLength aMessage)) = 1 := by
  unfold otLwfReceiveIp6DatagramCallback
  rcases hbuf : ext.NdisGetDataBuffer with _ | buf0 <;>
    simp only [] <;> split_ifs <;>
    simp_all [undoFreeExit, List.count_cons, List.count_append, tagIpv6]

/-- C9: when the allocation fails the callback makes no advance, free or indicate call.
When a list is allocated, exactly messageLength bytes are reserved on its first buffer
once, and then exactly one of two things happens.  Either none of the failures occurs
(reservation failure, no contiguous view, copied count different from messageLength,
address-scope drop, internal-protocol drop) and the only disposition call is one
NdisFIndicateReceiveNetBufferLists on the list with the default port and count 1; or one of
them occurs and the disposition calls are one NdisFreeNetBufferList on the list, preceded by
an NdisAdvanceNetBufferDataStart of exactly messageLength bytes if and only if the
reservation had succeeded, and no indication. -/
theorem otLwfReceiveIp6DatagramCallback_single_disposition (ext : Externals) (mem : Mem)
    (aMessage : otMessage) (pFilter : MS_FILTER) :
    (ext.NdisAllocateNetBufferAndNetBufferList = 0 →
      (otLwfReceiveIp6DatagramCallback ext mem aMessage pFilter).2.filter Call.isDisposition
        = []) ∧
    (ext.NdisAllocateNetBufferAndNetBufferList ≠ 0 →
      (otLwfReceiveIp6DatagramCallback ext mem aMessage pFilter).2.count
        (Call.NdisRetreatNetBufferDataStart
          (mem.nbl ext.NdisAllocateNetBufferAndNetBufferList).FirstNetBuffer
          (otGetMessageLength aMessage)) = 1 ∧
      ((¬ DeliveryFails ext aMessage pFilter ∧
        (otLwfReceiveIp6DatagramCallback ext mem aMessage pFilter).2.filter Call.isDisposition =
          [Call.NdisFIndicateReceiveNetBufferLists pFilter.FilterHandle
            ext.NdisAllocateNetBufferAndNetBufferList NDIS_DEFAULT_PORT_NUMBER 1 0]) ∨
       (DeliveryFails ext aMessage pFilter ∧
        (otLwfReceiveIp6DatagramCallback ext mem aMessage pFilter).2.filter Call.isDisposition =
          (if ext.NdisRetreatNetBufferDataStart = NDIS_STATUS_SUCCESS then
              [Call.NdisAdvanceNetBufferDataStart
                (mem.nbl ext.NdisAllocateNetBufferAndNetBufferList).FirstNetBuffer
                (otGetMessageLength aMessage)]
            else []) ++
          [Call.NdisFreeNetBufferList ext.NdisAllocateNetBufferAndNetBufferList]))) := by
  refine ⟨callback_not_allocated ext mem aMessage pFilter, fun halloc =>
    ⟨callback_retreat_mem ext mem aMessage pFilter halloc, ?_⟩⟩
  by_cases h : DeliveryFails ext aMessage pFilter
  · exact Or.inr ⟨h, callback_fails ext mem aMessage pFilter halloc h⟩
  · exact Or.inl ⟨h, callback_succeeds ext mem aMessage pFilter halloc h⟩

theorem otLwfReceiveIp6DatagramCallback_single_disposition_witness :
    (otLwfReceiveIp6DatagramCallback (exExt 47) exMem exMsgMle
        (exFilterWith exLinkLocal [exLinkLocal])).2.count
        (Call.NdisRetreatNetBufferDataStart
          (exMem.nbl (exExt 47).NdisAllocateNetBufferAndNetBufferList).FirstNetBuffer
          (otGetMessageLength exMsgMle)) = 1 ∧
      ((¬ DeliveryFails (exExt 47) exMsgMle (exFilterWith exLinkLocal [exLinkLocal]) ∧
        (otLwfReceiveIp6DatagramCallback (exExt 47) exMem exMsgMle
            (exFilterWith exLinkLocal [exLinkLocal])).2.filter Call.isDisposition =
          [Call.NdisFIndicateReceiveNetBufferLists
            (exFilterWith exLinkLocal [exLinkLocal]).FilterHandle
            (exExt 47).NdisAllocateNetBufferAndNetBufferList NDIS_DEFAULT_PORT_NUMBER 1 0]) ∨
       (DeliveryFails (exExt 47) exMsgMle (exFilterWith exLinkLocal [exLinkLocal]) ∧
        (otLwfReceiveIp6DatagramCallback (exExt 47) exMem exMsgMle
            (exFilterWith exLinkLocal [exLinkLocal])).2.filter Call.isDisposition =
          (if (exExt 47).NdisRetreatNetBufferDataStart = NDIS_STATUS_SUCCESS then
              [Call.NdisAdvanceNetBufferDataStart
                (exMem.nbl (exExt 47).NdisAllocateNetBufferAndNetBufferList).FirstNetBuffer
                (otGetMessageLength exMsgMle)]
            else []) ++
          [Call.NdisFreeNetBufferList (exExt 47).NdisAllocateNetBufferAndNetBufferList])) :=
  (otLwfReceiveIp6DatagramCallback_single_disposition (exExt 47) exMem exMsgMle
    (exFilterWith exLinkLocal [exLinkLocal])).2 (by decide)

/-! ## Balance of the guard -/

theorem guard_acquire_release (g : EX_RUNDOWN_REF)
    (h : (ExAcquireRundownProtection g).1 = true) :
    ExReleaseRundownProtection (ExAcquireRundownProtection g).2 = g := by
  cases g with
  | mk Active Count =>
    cases Active
    · simp [ExAcquireRundownProtection] at h
    · simp [ExAcquireRundownProtection, ExReleaseRundownProtection]

theorem guard_acquire_failed (g : EX_RUNDOWN_REF)
    (h : (ExAcquireRundownProtection g).1 = false) :
    (ExAcquireRundownProtection g).2 = g := by
  cases g with
  | mk Active Count =>
    cases Active
    · simp [ExAcquireRundownProtection]
    · simp [ExAcquireRundownProtection] at h

theorem FilterSend_queued_eq (fuel : Nat) (mem : Mem) (pFilter : MS_FILTER)
    (NetBufferLists : PNET_BUFFER_LIST) (PortNumber : NDIS_PORT_NUMBER) (SendFlags : Nat)
    (hguard : (ExAcquireRundownProtection pFilter.DataPathRundown).1 = true) :
    FilterSendNetBufferLists fuel mem pFilter NetBufferLists PortNumber SendFlags =
      some { mem := mem, filter := pFilter,
             trace := [Call.Log LogLevel.FuncEntry, Call.ExAcquireRundownProtection,
               Call.otLwfEventProcessingIndicateNewNetBufferLists
                 (NDIS_TEST_SEND_AT_DISPATCH_LEVEL SendFlags) false PortNumber NetBufferLists,
               Call.ExReleaseRundownProtection,
               Call.Log LogLevel.FuncExit] } := by
  unfold FilterSendNetBufferLists
  simp only [hguard, Bool.not_true, Bool.false_eq_true, if_false,
    guard_acquire_release pFilter.DataPathRundown hguard]
  rfl

theorem FilterReceive_queued_eq (fuel : Nat) (mem : Mem) (pFilter : MS_FILTER)
    (NetBufferLists : PNET_BUFFER_LIST) (PortNumber : NDIS_PORT_NUMBER)
    (NumberOfNetBufferLists : Nat) (ReceiveFlags : Nat)
    (hpend : NDIS_TEST_RECEIVE_CANNOT_PEND ReceiveFlags = false)
    (hphy : pFilter.otPhyState ≠ otPhyState.kStateDisabled)
    (hguard : (ExAcquireRundownProtection pFilter.DataPathRundown).1 = true) :
    FilterReceiveNetBufferLists fuel mem pFilter NetBufferLists PortNumber
      NumberOfNetBufferLists ReceiveFlags =
      some { mem := mem, filter := pFilter,
             trace := [Call.Log LogLevel.FuncEntry, Call.ExAcquireRundownProtection,
               Call.otLwfEventProcessingIndicateNewNetBufferLists
                 (NDIS_TEST_RECEIVE_AT_DISPATCH_LEVEL ReceiveFlags) true PortNumber
                 NetBufferLists,
               Call.ExReleaseRundownProtection,
               Call.Log LogLevel.FuncExit] } := by
  unfold FilterReceiveNetBufferLists
  simp only [hpend, hphy, hguard, Bool.not_true, Bool.false_eq_true, if_false,
    guard_acquire_release pFilter.DataPathRundown hguard]
  rfl

/-- C11: on a finite chain both FilterSendNetBufferLists and FilterReceiveNetBufferLists
return, and in each the number of ExReleaseRundownProtection calls equals the number of
successful ExAcquireRundownProtection calls, at most one acquire being tried.  Trace lines
apart, the calls are: on the queued path the acquire, the hand-over to the worker, then the
release, in this order; on the paused path the failed acquire and the completion or return
of the chain, with no release; on the not-supported path of ingress nothing at all; and on
ingress with phy-state Disabled only the return of the chain, the acquire not being tried.
On every path the guard is left in the state in which it was found. -/
theorem guard_balance (fuel : Nat) (mem : Mem) (pFilter : MS_FILTER)
    (NetBufferLists : PNET_BUFFER_LIST) (PortNumber : NDIS_PORT_NUMBER)
    (NumberOfNetBufferLists : Nat) (SendFlags ReceiveFlags : Nat)
    (l : List PNET_BUFFER_LIST) (hchain : IsChain mem NetBufferLists l)
    (hfuel : l.length ≤ fuel) :
    ∃ outS outR,
      FilterSendNetBufferLists fuel mem pFilter NetBufferLists PortNumber SendFlags
        = some outS ∧
      FilterReceiveNetBufferLists fuel mem pFilter NetBufferLists PortNumber
        NumberOfNetBufferLists ReceiveFlags = some outR ∧
      withoutLog outS.trace =
        (if (ExAcquireRundownProtection pFilter.DataPathRundown).1 then
          [Call.ExAcquireRundownProtection,
           Call.otLwfEventProcessingIndicateNewNetBufferLists
             (NDIS_TEST_SEND_AT_DISPATCH_LEVEL SendFlags) false PortNumber NetBufferLists,
           Call.ExReleaseRundownProtection]
        else
          [Call.ExAcquireRundownProtection,
           Call.NdisFSendNetBufferListsComplete pFilter.FilterHandle NetBufferLists
             (if NDIS_TEST_SEND_AT_DISPATCH_LEVEL SendFlags
               then NDIS_SEND_COMPLETE_FLAGS_DISPATCH_LEVEL else 0)]) ∧
      outS.trace.count Call.ExAcquireRundownProtection ≤ 1 ∧
      outS.trace.count Call.ExReleaseRundownProtection =
        successfulAcquires pFilter.DataPathRundown outS.trace ∧
      outS.filter.DataPathRundown = pFilter.DataPathRundown ∧
      withoutLog outR.trace =
        (if NDIS_TEST_RECEIVE_CANNOT_PEND ReceiveFlags then []
        else if pFilter.otPhyState = otPhyState.kStateDisabled then
          [Call.NdisFReturnNetBufferLists pFilter.FilterHandle NetBufferLists
            (if NDIS_TEST_RECEIVE_AT_DISPATCH_LEVEL ReceiveFlags
              then NDIS_RETURN_FLAGS_DISPATCH_LEVEL else 0)]
        else if (ExAcquireRundownProtection pFilter.DataPathRundown).1 then
          [Call.ExAcquireRundownProtection,
           Call.otLwfEventProcessingIndicateNewNetBufferLists
             (NDIS_TEST_RECEIVE_AT_DISPATCH_LEVEL ReceiveFlags) true PortNumber
             NetBufferLists,
           Call.ExReleaseRundownProtection]
        else
          [Call.ExAcquireRundownProtection,
           Call.NdisFReturnNetBufferLists pFilter.FilterHandle NetBufferLists
             (if NDIS_TEST_RECEIVE_AT_DISPATCH_LEVEL ReceiveFlags
               then NDIS_RETURN_FLAGS_DISPATCH_LEVEL else 0)]) ∧
      outR.trace.count Call.ExAcquireRundownProtection ≤ 1 ∧
      outR.trace.count Call.ExReleaseRundownProtection =
        successfulAcquires pFilter.DataPathRundown outR.trace ∧
      outR.filter.DataPathRundown = pFilter.DataPathRundown := by
  have hsend : ∃ outS,
      FilterSendNetBufferLists fuel mem pFilter NetBufferLists PortNumber SendFlags
        = some outS ∧
      withoutLog outS.trace =
        (if (ExAcquireRundownProtection pFilter.DataPathRundown).1 then
          [Call.ExAcquireRundownProtection,
           Call.otLwfEventProcessingIndicateNewNetBufferLists
             (NDIS_TEST_SEND_AT_DISPATCH_LEVEL SendFlags) false PortNumber NetBufferLists,
           Call.ExReleaseRundownProtection]
        else
          [Call.ExAcquireRundownProtection,
           Call.NdisFSendNetBufferListsComplete pFilter.FilterHandle NetBufferLists
             (if NDIS_TEST_SEND_AT_DISPATCH_LEVEL SendFlags
               then NDIS_SEND_COMPLETE_FLAGS_DISPATCH_LEVEL else 0)]) ∧
      outS.trace.count Call.ExAcquireRundownProtection ≤ 1 ∧
      outS.trace.count Call.ExReleaseRundownProtection =
        successfulAcquires pFilter.DataPathRundown outS.trace ∧
      outS.filter.DataPathRundown = pFilter.DataPathRundown := by
    rcases hg : (ExAcquireRundownProtection pFilter.DataPathRundown).1 with _ | _
    · refine ⟨_, FilterSend_paused_eq fuel mem pFilter NetBufferLists PortNumber SendFlags l
        hchain hfuel hg, ?_, ?_, ?_, ?_⟩
      · simp [withoutLog, Call.isLog]
      · simp [List.count_cons]
      · simp [successfulAcquires, hg, List.count_cons]
      · exact guard_acquire_failed _ hg
    · refine ⟨_, FilterSend_queued_eq fuel mem pFilter NetBufferLists PortNumber SendFlags
        hg, ?_, ?_, ?_, ?_⟩
      · simp [withoutLog, Call.isLog]
      · simp [List.count_cons]
      · simp [successfulAcquires, hg, List.count_cons]
      · rfl
  have hrecv : ∃ outR,
      FilterReceiveNetBufferLists fuel mem pFilter NetBufferLists PortNumber
        NumberOfNetBufferLists ReceiveFlags = some outR ∧
      withoutLog outR.trace =
        (if NDIS_TEST_RECEIVE_CANNOT_PEND ReceiveFlags then []
        else if pFilter.otPhyState = otPhyState.kStateDisabled then
          [Call.NdisFReturnNetBufferLists pFilter.FilterHandle NetBufferLists
            (if NDIS_TEST_RECEIVE_AT_DISPATCH_LEVEL ReceiveFlags
              then NDIS_RETURN_FLAGS_DISPATCH_LEVEL else 0)]
        else if (ExAcquireRundownProtection pFilter.DataPathRundown).1 then
          [Call.ExAcquireRundownProtection,
           Call.otLwfEventProcessingIndicateNewNetBufferLists
             (NDIS_TEST_RECEIVE_AT_DISPATCH_LEVEL ReceiveFlags) true PortNumber
             NetBufferLists,
           Call.ExReleaseRundownProtection]
        else
          [Call.ExAcquireRundownProtection,
           Call.NdisFReturnNetBufferLists pFilter.FilterHandle NetBufferLists
             (if NDIS_TEST_RECEIVE_AT_DISPATCH_LEVEL ReceiveFlags
               then NDIS_RETURN_FLAGS_DISPATCH_LEVEL else 0)]) ∧
      outR.trace.count Call.ExAcquireRundownProtection ≤ 1 ∧
      outR.trace.count Call.ExReleaseRundownProtection =
        successfulAcquires pFilter.DataPathRundown outR.trace ∧
      outR.filter.DataPathRundown = pFilter.DataPathRundown := by
    rcases hp : NDIS_TEST_RECEIVE_CANNOT_PEND ReceiveFlags with _ | _
    · by_cases hphy : pFilter.otPhyState = otPhyState.kStateDisabled
      · have hm := markChain_eq NDIS_STATUS_PAUSED l fuel mem NetBufferLists hchain hfuel
        have heq : FilterReceiveNetBufferLists fuel mem pFilter NetBufferLists PortNumber
            NumberOfNetBufferLists ReceiveFlags =
            some { mem := markAll mem l NDIS_STATUS_PAUSED, filter := pFilter,
                   trace := [Call.Log LogLevel.FuncEntry, Call.Log LogLevel.Verbose,
                     Call.NdisFReturnNetBufferLists pFilter.FilterHandle NetBufferLists
                       (if NDIS_TEST_RECEIVE_AT_DISPATCH_LEVEL ReceiveFlags
                         then NDIS_RETURN_FLAGS_DISPATCH_LEVEL else 0),
                     Call.Log LogLevel.FuncExit] } := by
          unfold FilterReceiveNetBufferLists
          simp only [hp, hphy, if_true, hm, Bool.false_eq_true, if_false]
          rfl
        refine ⟨_, heq, ?_, ?_, ?_, ?_⟩
        · simp [withoutLog, Call.isLog, hphy]
        · simp [List.count_cons]
        · simp [successfulAcquires, List.count_cons]
        · rfl
      · rcases hg : (ExAcquireRundownProtection pFilter.DataPathRundown).1 with _ | _
        · have heq := FilterReceive_paused_eq fuel mem pFilter NetBufferLists PortNumber
            NumberOfNetBufferLists ReceiveFlags l hchain hfuel hp hg
          simp only [hphy, if_false] at heq
          refine ⟨_, heq, ?_, ?_, ?_, ?_⟩
          · simp [withoutLog, Call.isLog, hphy]
          · simp [List.count_cons]
          · simp [successfulAcquires, hg, List.count_cons]
          · exact guard_acquire_failed _ hg
        · refine ⟨_, FilterReceive_queued_eq fuel mem pFilter NetBufferLists PortNumber
            NumberOfNetBufferLists ReceiveFlags hp hphy hg, ?_, ?_, ?_, ?_⟩
          · simp [withoutLog, Call.isLog, hphy]
          · simp [List.count_cons]
          · simp [successfulAcquires, hg, List.count_cons]
          · rfl
    · refine ⟨_, FilterReceive_cannot_pend_eq fuel mem pFilter NetBufferLists PortNumber
        NumberOfNetBufferLists ReceiveFlags l hchain hfuel hp, ?_, ?_, ?_, ?_⟩
      · simp [withoutLog, Call.isLog]
      · simp [List.count_cons]
      · simp [successfulAcquires, List.count_cons]
      · rfl
  obtain ⟨outS, s1, s2, s3, s4, s5⟩ := hsend
  obtain ⟨outR, r1, r2, r3, r4, r5⟩ := hrecv
  exact ⟨outS, outR, s1, r1, s2, s3, s4, s5, r2, r3, r4, r5⟩

theorem guard_balance_witness :
    ∃ outS outR,
      FilterSendNetBufferLists 3 exMem (exFilter true []) 1 0 1
        = some outS ∧
      FilterReceiveNetBufferLists 3 exMem (exFilter true []) 1 0
        3 0 = some outR ∧
      withoutLog outS.trace =
        (if (ExAcquireRundownProtection (exFilter true []).DataPathRundown).1 then
          [Call.ExAcquireRundownProtection,
           Call.otLwfEventProcessingIndicateNewNetBufferLists
             (NDIS_TEST_SEND_AT_DISPATCH_LEVEL 1) false 0 1,
           Call.ExReleaseRundownProtection]
        else
          [Call.ExAcquireRundownProtection,
           Call.NdisFSendNetBufferListsComplete (exFilter true []).FilterHandle 1
             (if NDIS_TEST_SEND_AT_DISPATCH_LEVEL 1
               then NDIS_SEND_COMPLETE_FLAGS_DISPATCH_LEVEL else 0)]) ∧
      outS.trace.count Call.ExAcquireRundownProtection ≤ 1 ∧
      outS.trace.count Call.ExReleaseRundownProtection =
        successfulAcquires (exFilter true []).DataPathRundown outS.trace ∧
      outS.filter.DataPathRundown = (exFilter true []).DataPathRundown ∧
      withoutLog outR.trace =
        (if NDIS_TEST_RECEIVE_CANNOT_PEND 0 then []
        else if (exFilter true []).otPhyState = otPhyState.kStateDisabled then
          [Call.NdisFReturnNetBufferLists (exFilter true []).FilterHandle 1
            (if NDIS_TEST_RECEIVE_AT_DISPATCH_LEVEL 0
              then NDIS_RETURN_FLAGS_DISPATCH_LEVEL else 0)]
        else if (ExAcquireRundownProtection (exFilter true []).DataPathRundown).1 then
          [Call.ExAcquireRundownProtection,
           Call.otLwfEventProcessingIndicateNewNetBufferLists
             (NDIS_TEST_RECEIVE_AT_DISPATCH_LEVEL 0) true 0
             1,
           Call.ExReleaseRundownProtection]
        else
          [Call.ExAcquireRundownProtection,
           Call.NdisFReturnNetBufferLists (exFilter true []).FilterHandle 1
             (if NDIS_TEST_RECEIVE_AT_DISPATCH_LEVEL 0
               then NDIS_RETURN_FLAGS_DISPATCH_LEVEL else 0)]) ∧
      outR.trace.count Call.ExAcquireRundownProtection ≤ 1 ∧
      outR.trace.count Call.ExReleaseRundownProtection =
        successfulAcquires (exFilter true []).DataPathRundown outR.trace ∧
      outR.filter.DataPathRundown = (exFilter true []).DataPathRundown :=
  guard_balance 3 exMem (exFilter true []) 1 0 3 1 0 [1, 2, 3] exMem_chain (by decide)

end OtLwf
